import Mathlib

/-!
Verification development for the layer0 control plane.

This file gives a shallow embedding of the orchestration core:
the DynamoDB-backed tag store (api/tag/dynamo_store.go), the ECS
environment manager (api/backend/ecs/environment_manager.go) and the AWS
task provider delete path (api/provider/aws/task_delete.go), together
with theorems about their contracts.

Conventions of the embedding:
* Go strings are Lean String; Go int is Int; Go maps are association
  lists with unique keys (a determinisation of Go map iteration order).
* Fallible Go functions returning (T, error) become Except AwsErr T.
* The stateful cloud provider and the Dynamo table become explicit state
  values threaded through the operations; each operation additionally
  returns the list of provider/backing-store requests it issued, so that
  ordering claims can be stated about the request trace.
* Provider SDK calls and repository helpers that live outside the given
  sources (waiter, identifier codec, configuration, error matchers) are
  modelled from the specification; their doc comments say so.
-/

namespace Layer0

/-! ## String helpers

The Lean core String functions are replaced by kernel-reducible
equivalents over the underlying character lists. -/

/-- ASCII lower-casing of one character (Go strings.ToLower on ASCII). -/
def lowerChar (c : Char) : Char :=
  if 'A' ≤ c ∧ c ≤ 'Z' then Char.ofNat (c.toNat + 32) else c

/-- Go strings.ToLower (ASCII range, which covers the inputs used here). -/
def lowerStr (s : String) : String :=
  ⟨s.data.map lowerChar⟩

/-- Whether the character list pat is a prefix of l. -/
def listIsPre : List Char → List Char → Bool
  | [], _ => true
  | _ :: _, [] => false
  | a :: as, b :: bs => a == b && listIsPre as bs

/-- Whether pat occurs as a contiguous substring of l (Go strings.Contains). -/
def hasInfix (l pat : List Char) : Bool :=
  listIsPre pat l ||
    match l with
    | [] => false
    | _ :: rest => hasInfix rest pat

/-- Go strings.Contains(s, pat). -/
def strContains (s pat : String) : Bool :=
  hasInfix s.data pat.data

/-- Go strings.HasPrefix(s, pat). -/
def strHasPre (s pat : String) : Bool :=
  listIsPre pat.data s.data

/-! ## Errors -/

/-- A provider or storage error: machine-readable code plus human-readable
message, mirroring awserr.Error; plain Go errors carry an empty code. -/
structure AwsErr where
  code : String
  msg : String
deriving DecidableEq

/-- Modelled from the spec: the ECS backend error matcher ContainsErrCode
(common helper, not under src/), true when the provider error carries the
given machine-readable code. -/
def ContainsErrCode (e : AwsErr) (code : String) : Bool :=
  e.code == code

/-- Modelled from the spec: the ECS backend error matcher ContainsErrMsg
(common helper, not under src/), true when the given pattern occurs as a
substring of the error message. -/
def ContainsErrMsg (e : AwsErr) (pat : String) : Bool :=
  strContains e.msg pat

/-! ## Tag store (api/tag/dynamo_store.go)

The Dynamo table is keyed by the (EntityType, EntityID) primary key, so it
is represented as a function from the key pair to an optional Tags
attribute; primary-key uniqueness is inherent in this representation. -/

/-- models.Tag: an (entityType, entityID, key, value) quadruple. -/
structure Tag where
  EntityType : String
  EntityID : String
  Key : String
  Value : String
deriving DecidableEq

/-- The Tags attribute of one item: Go map[string]string, determinised as
an association list with unique keys in insertion order. -/
abbrev TagMap := List (String × String)

/-- DynamoTagSchema: one item of the tag table. -/
structure DynamoTagSchema where
  EntityType : String
  EntityID : String
  Tags : TagMap
deriving DecidableEq

/-- DynamoTagSchema.ToTags. -/
def DynamoTagSchema.ToTags (s : DynamoTagSchema) : List Tag :=
  s.Tags.map (fun p => { EntityType := s.EntityType, EntityID := s.EntityID,
                         Key := p.1, Value := p.2 })

/-- The backing Dynamo table: (EntityType, EntityID) to optional Tags. -/
def Table := String → String → Option TagMap

/-- A request sent to the backing store (DynamoDB). -/
inductive DynamoRequest where
  | putIfAbsent (item : DynamoTagSchema)
  | updateTags (entityType entityID : String) (tags : TagMap)
  | deleteItem (entityType entityID : String)
  | getItem (entityType entityID : String)
deriving DecidableEq

/-- Point update of the table at one primary key. -/
def tableSet (tbl : Table) (t i : String) (v : Option TagMap) : Table :=
  fun t' i' => if t' = t ∧ i' = i then v else tbl t' i'

/-- The empty table. -/
def emptyTable : Table := fun _ _ => none

/-- The guregu/dynamo not-found error (dynamo.ErrNotFound). -/
def noItemFound : AwsErr := ⟨"", "dynamo: no item found"⟩

/-- DynamoStore.selectByTypeAndID (unexported): local validation of the key
arguments, then a consistent Get of the single item.  Second component of
the result: the requests issued to the backing store. -/
def selectByTypeAndID (tbl : Table) (entityType entityID : String) :
    Except AwsErr DynamoTagSchema × List DynamoRequest :=
  if entityType = "" then
    (.error ⟨"", "Failed to select tags: EntityType is required"⟩, [])
  else if entityID = "" then
    (.error ⟨"", "Failed to select tags: EntityID is required"⟩, [])
  else
    match tbl entityType entityID with
    | none => (.error noItemFound, [.getItem entityType entityID])
    | some m => (.ok ⟨entityType, entityID, m⟩, [.getItem entityType entityID])

/-- DynamoStore.SelectByTypeAndID: absence of a matching item is not an
error, it returns an empty result. -/
def SelectByTypeAndID (tbl : Table) (entityType entityID : String) :
    Except AwsErr (List Tag) × List DynamoRequest :=
  match selectByTypeAndID tbl entityType entityID with
  | (.error e, reqs) =>
      if e.msg = "dynamo: no item found" then (.ok [], reqs) else (.error e, reqs)
  | (.ok schema, reqs) => (.ok schema.ToTags, reqs)

/-- Whether the key is present in a Tags attribute. -/
def containsKey (k : String) (m : TagMap) : Bool :=
  m.any (fun p => p.1 == k)

/-- Go map update m[k] = v: overwrite in place if the key exists, append
otherwise. -/
def setKey (k v : String) (m : TagMap) : TagMap :=
  if containsKey k m then m.map (fun p => if p.1 == k then (k, v) else p)
  else m ++ [(k, v)]

/-- Go delete(m, k). -/
def eraseKey (k : String) (m : TagMap) : TagMap :=
  m.filter (fun p => !(p.1 == k))

/-- DynamoStore.Delete: read the item, do nothing if the key is absent,
update the item if tags remain, delete the whole item if this was the last
tag. -/
def Delete (tbl : Table) (entityType entityID key : String) :
    Except AwsErr Table × List DynamoRequest :=
  match selectByTypeAndID tbl entityType entityID with
  | (.error e, reqs) => (.error e, reqs)
  | (.ok schema, reqs) =>
    if !(containsKey key schema.Tags) then (.ok tbl, reqs)
    else
      let tags := eraseKey key schema.Tags
      if tags.length > 0 then
        (.ok (tableSet tbl entityType entityID (some tags)),
         reqs ++ [.updateTags entityType entityID tags])
      else
        (.ok (tableSet tbl entityType entityID none),
         reqs ++ [.deleteItem entityType entityID])

/-- DynamoStore.insertKey: patch path taken after the conditional Put was
rejected because the item already exists. -/
def insertKey (tbl : Table) (tag : Tag) : Except AwsErr Table × List DynamoRequest :=
  match selectByTypeAndID tbl tag.EntityType tag.EntityID with
  | (.error e, reqs) => (.error e, reqs)
  | (.ok schema, reqs) =>
    let tags := setKey tag.Key tag.Value schema.Tags
    (.ok (tableSet tbl tag.EntityType tag.EntityID (some tags)),
     reqs ++ [.updateTags tag.EntityType tag.EntityID tags])

/-- DynamoStore.Insert: a conditional Put (insert only if the item is
absent); on ConditionalCheckFailedException fall back to the patch path.
The Put request is issued to the backing store before any validation. -/
def Insert (tbl : Table) (tag : Tag) : Except AwsErr Table × List DynamoRequest :=
  let schema : DynamoTagSchema :=
    ⟨tag.EntityType, tag.EntityID, [(tag.Key, tag.Value)]⟩
  match tbl tag.EntityType tag.EntityID with
  | some _ =>
    -- the backing store rejects the conditional Put with
    -- ConditionalCheckFailedException, and Insert falls back to insertKey
    let (r, reqs) := insertKey tbl tag
    (r, .putIfAbsent schema :: reqs)
  | none =>
    (.ok (tableSet tbl tag.EntityType tag.EntityID (some [(tag.Key, tag.Value)])),
     [.putIfAbsent schema])

/-- Iterated Insert of (key, value) pairs at one fixed (entityType,
entityID), aborting on the first error. -/
def insertAll (t i : String) : Table → List (String × String) → Except AwsErr Table
  | tbl, [] => .ok tbl
  | tbl, (k, v) :: rest =>
    match (Insert tbl ⟨t, i, k, v⟩).1 with
    | .error e => .error e
    | .ok tbl' => insertAll t i tbl' rest

/-- Iterated Delete of keys at one fixed (entityType, entityID), aborting
on the first error. -/
def deleteAll (t i : String) : Table → List String → Except AwsErr Table
  | tbl, [] => .ok tbl
  | tbl, k :: rest =>
    match (Delete tbl t i k).1 with
    | .error e => .error e
    | .ok tbl' => deleteAll t i tbl' rest

/-! ## Task provider (api/provider/aws/task_delete.go) -/

/-- Modelled from the spec: configuration source value Config.Instance(),
the fixed deployment-wide instance name, resolved once per operation. -/
def configInstance : String := "demo"

/-- Modelled from the spec: addLayer0Prefix of the Identifier Codec (not
under src/), deriving the provider-namespaced name from the configured
namespace and the logical ID. -/
def addLayer0Pre (instanceName entityID : String) : String :=
  "l0-" ++ instanceName ++ "-" ++ entityID

/-- State visible to the task provider: the tag table, plus the response
the ECS StopTask endpoint gives to a stop request (none means success). -/
structure TaskState where
  tagTable : Table
  stopTaskErr : Option AwsErr

/-- Modelled from the spec: lookupEntityEnvironmentID (provider helper, not
under src/) reads the entity's environment_id relation tag. -/
def lookupEntityEnvironmentID (tbl : Table) (entityType entityID : String) :
    Except AwsErr String :=
  match (SelectByTypeAndID tbl entityType entityID).1 with
  | .error e => .error e
  | .ok tags =>
    match tags.find? (fun tg => tg.Key == "environment_id") with
    | some tg => .ok tg.Value
    | none => .error ⟨"", "failed to find tag with key environment_id"⟩

/-- Modelled from the spec: TaskProvider.lookupTaskARN (not under src/)
reads the task's provider identifier from its arn tag. -/
def lookupTaskARN (tbl : Table) (taskID : String) : Except AwsErr String :=
  match (SelectByTypeAndID tbl "task" taskID).1 with
  | .error e => .error e
  | .ok tags =>
    match tags.find? (fun tg => tg.Key == "arn") with
    | some tg => .ok tg.Value
    | none => .error ⟨"", "failed to find tag with key arn"⟩

/-- Iterated deletion of a list of tags, aborting on the first error. -/
def deleteTagList : Table → List Tag → Except AwsErr Table
  | tbl, [] => .ok tbl
  | tbl, tg :: rest =>
    match (Delete tbl tg.EntityType tg.EntityID tg.Key).1 with
    | .error e => .error e
    | .ok tbl' => deleteTagList tbl' rest

/-- Modelled from the spec: deleteEntityTags (provider helper, not under
src/) selects every tag of the entity and deletes each one. -/
def deleteEntityTags (tbl : Table) (entityType entityID : String) :
    Except AwsErr Table :=
  match (SelectByTypeAndID tbl entityType entityID).1 with
  | .error e => .error e
  | .ok tags => deleteTagList tbl tags

/-- TaskProvider.stopTask: build the StopTask input (both fields are set,
so input validation passes) and issue it.  In the source, a response error
that is not the tolerated task-was-not-found condition also falls through
to the trailing return nil, so every provider response is treated as
success here; the two branches are kept to mirror the source. -/
def stopTask (st : TaskState) (clusterName taskARN : String) : Except AwsErr Unit :=
  match clusterName, taskARN, st.stopTaskErr with
  | _, _, some e =>
    if ContainsErrMsg e "task was not found" then .ok () else .ok ()
  | _, _, none => .ok ()

/-- TaskProvider.Delete: resolve the owning environment and the task ARN
from tags (logging a warning and returning nil if either is missing), stop
the task on its cluster, then delete the task's tags. -/
def TaskDelete (st : TaskState) (taskID : String) : Except AwsErr TaskState :=
  match lookupEntityEnvironmentID st.tagTable "task" taskID with
  | .error _ => .ok st
  | .ok environmentID =>
    match lookupTaskARN st.tagTable taskID with
    | .error _ => .ok st
    | .ok taskARN =>
      let fqEnvironmentID := addLayer0Pre configInstance environmentID
      let clusterName := fqEnvironmentID
      match stopTask st clusterName taskARN with
      | .error e => .error e
      | .ok _ =>
        match deleteEntityTags st.tagTable "task" taskID with
        | .error e => .error e
        | .ok tbl' => .ok { st with tagTable := tbl' }

/-! ## ECS environment manager (api/backend/ecs/environment_manager.go)

The provider clients (ECS, EC2, AutoScaling) are modelled from the spec as
a capability set over an explicit provider state; AWS signals absence of a
resource with the error codes and message substrings that the manager
matches on. -/

/-- An autoscaling.Group as the manager reads it. -/
structure AutoScalingGroup where
  name : String
  minSize : Int
  maxSize : Int
  launchConfigurationName : Option String
  instances : Int
deriving DecidableEq

/-- An autoscaling.LaunchConfiguration as the manager reads it. -/
structure LaunchConfiguration where
  name : String
  imageId : String
  instanceType : String
deriving DecidableEq

/-- An ec2.SecurityGroup as the manager reads it. -/
structure SecurityGroup where
  groupName : String
  groupId : String
deriving DecidableEq

/-- The provider-side state an environment is materialised into. -/
structure EnvState where
  clusters : List String
  asgs : List AutoScalingGroup
  launchConfigs : List LaunchConfiguration
  securityGroups : List SecurityGroup
  ingress : List (String × String)

/-- One call issued to the cloud provider. -/
inductive ProviderCall where
  | updateAutoScalingGroupMinSize (name : String) (size : Int)
  | updateAutoScalingGroupMaxSize (name : String) (size : Int)
  | deleteAutoScalingGroup (name : String)
  | deleteLaunchConfiguration (name : String)
  | describeAutoScalingGroup (name : String)
  | describeLaunchConfiguration (name : String)
  | describeSecurityGroup (name : String)
  | deleteSecurityGroup (groupId : String)
  | describeCluster (name : String)
  | describeClusters
  | deleteCluster (name : String)
  | createCluster (name : String)
  | createSecurityGroup (name description vpcID : String)
  | sleepPropagation
  | authorizeSecurityGroupIngressFromGroup (groupId sourceGroupId : String)
  | createLaunchConfiguration (name amiID iamRole instanceType keyPair userData : String)
      (securityGroups : List String)
  | createAutoScalingGroup (name launchConfigName : String) (minSize maxSize : Int)
deriving DecidableEq

/-- Modelled from the spec: the Identifier Codec namespace marker
(id.PREFIX), the fixed namespace under which every provider resource name
lives. -/
def l0Pre : String := "l0-"

/-- Modelled from the spec: L0EnvironmentID to ECSEnvironmentID — prepend
the fixed namespace marker. -/
def ecsEnvironmentIDOf (environmentID : String) : String :=
  l0Pre ++ environmentID

/-- Modelled from the spec: ECSEnvironmentID back to L0EnvironmentID —
strip the namespace marker (mutual inverse of the encoding). -/
def l0EnvironmentIDOf (ecsEnvironmentID : String) : String :=
  ⟨ecsEnvironmentID.data.drop l0Pre.data.length⟩

/-- Modelled from the spec: ECSEnvironmentID.SecurityGroupName, a pure
derivation of the provider name. -/
def securityGroupNameOf (ecsEnvironmentID : String) : String :=
  ecsEnvironmentID ++ "--env"

/-- Modelled from the spec: ECSEnvironmentID.AutoScalingGroupName, a pure
derivation of the provider name. -/
def autoScalingGroupNameOf (ecsEnvironmentID : String) : String :=
  ecsEnvironmentID ++ "--asg"

/-- Modelled from the spec: ECSEnvironmentID.LaunchConfigurationName, a
pure derivation of the provider name. -/
def launchConfigurationNameOf (ecsEnvironmentID : String) : String :=
  ecsEnvironmentID ++ "--lc"

/-- Modelled from the spec: id.GenerateHashedEntityID, a deterministic,
collision-resistant function of the human-supplied name; only determinism
matters to the claims, so an injective stand-in is used. -/
def GenerateHashedEntityID (name : String) : String :=
  "h" ++ name

/-- Modelled from the spec: configuration source values (default AMIs, VPC,
subnets, role, key pair, agent group, artifact bucket), read-only. -/
def AWSVPCID : String := "vpc-layer0"

def AWSAgentGroupID : String := "sg-agent"

def AWSECSInstanceProfile : String := "ecs-instance-profile"

def AWSKeyPair : String := "layer0-keypair"

def AWSLinuxServiceAMI : String := "ami-linux-default"

def AWSWindowsServiceAMI : String := "ami-windows-default"

def AWSS3Bucket : String := "layer0-bucket"

/-- The AWS error a scaling-group call reports when the named group does
not exist; the manager matches on the substrings name not found / not
found of its message. -/
def asgNameNotFound : AwsErr :=
  ⟨"ValidationError", "AutoScalingGroup name not found - no such group"⟩

/-- The AWS error a launch-configuration call reports when the named
configuration does not exist. -/
def lcNameNotFound : AwsErr :=
  ⟨"ValidationError", "Launch configuration name not found - no such configuration"⟩

/-- The ECS error for a missing cluster. -/
def clusterNotFound : AwsErr :=
  ⟨"ClusterNotFoundException", "cluster not found"⟩

/-- The EC2 error for deleting a missing security group. -/
def sgNotFound : AwsErr :=
  ⟨"InvalidGroup.NotFound", "the specified security group does not exist"⟩

/-- The EC2 error for authorizing an ingress rule that already exists. -/
def duplicatePermission : AwsErr :=
  ⟨"InvalidPermission.Duplicate", "the specified rule already exists"⟩

def lookupASG (st : EnvState) (name : String) : Option AutoScalingGroup :=
  st.asgs.find? (fun a => a.name == name)

/-- State after setting the min bound of the named scaling group. -/
def asgSetMin (st : EnvState) (name : String) (v : Int) : EnvState :=
  { st with asgs := st.asgs.map (fun a => if a.name == name then { a with minSize := v } else a) }

/-- State after setting the max bound of the named scaling group. -/
def asgSetMax (st : EnvState) (name : String) (v : Int) : EnvState :=
  { st with asgs := st.asgs.map (fun a => if a.name == name then { a with maxSize := v } else a) }

/-- State after removing the named scaling group. -/
def asgRemove (st : EnvState) (name : String) : EnvState :=
  { st with asgs := st.asgs.filter (fun a => !(a.name == name)) }

/-- State after removing the named launch configuration. -/
def lcRemove (st : EnvState) (name : String) : EnvState :=
  { st with launchConfigs := st.launchConfigs.filter (fun c => !(c.name == name)) }

/-- State after removing the security group with the given identifier. -/
def sgRemove (st : EnvState) (groupId : String) : EnvState :=
  { st with securityGroups := st.securityGroups.filter (fun g => !(g.groupId == groupId)) }

/-- State after removing the named cluster. -/
def clusterRemove (st : EnvState) (name : String) : EnvState :=
  { st with clusters := st.clusters.filter (fun c => !(c == name)) }

def lookupLC (st : EnvState) (name : String) : Option LaunchConfiguration :=
  st.launchConfigs.find? (fun c => c.name == name)

def lookupSG (st : EnvState) (name : String) : Option SecurityGroup :=
  st.securityGroups.find? (fun g => g.groupName == name)

/-- Modelled from the spec: AutoScaling.UpdateAutoScalingGroupMinSize. -/
def updateAutoScalingGroupMinSizeP (st : EnvState) (name : String) (size : Int) :
    Except AwsErr EnvState :=
  match lookupASG st name with
  | none => .error asgNameNotFound
  | some _ => .ok (asgSetMin st name size)

/-- Modelled from the spec: AutoScaling.UpdateAutoScalingGroupMaxSize. -/
def updateAutoScalingGroupMaxSizeP (st : EnvState) (name : String) (size : Int) :
    Except AwsErr EnvState :=
  match lookupASG st name with
  | none => .error asgNameNotFound
  | some _ => .ok (asgSetMax st name size)

/-- Modelled from the spec: AutoScaling.DeleteAutoScalingGroup. -/
def deleteAutoScalingGroupP (st : EnvState) (name : String) : Except AwsErr EnvState :=
  match lookupASG st name with
  | none => .error asgNameNotFound
  | some _ => .ok (asgRemove st name)

/-- Modelled from the spec: AutoScaling.DescribeAutoScalingGroup. -/
def describeAutoScalingGroupP (st : EnvState) (name : String) :
    Except AwsErr AutoScalingGroup :=
  match lookupASG st name with
  | none => .error asgNameNotFound
  | some a => .ok a

/-- Modelled from the spec: AutoScaling.DeleteLaunchConfiguration. -/
def deleteLaunchConfigurationP (st : EnvState) (name : String) : Except AwsErr EnvState :=
  match lookupLC st name with
  | none => .error lcNameNotFound
  | some _ => .ok (lcRemove st name)

/-- Modelled from the spec: AutoScaling.DescribeLaunchConfiguration. -/
def describeLaunchConfigurationP (st : EnvState) (name : String) :
    Except AwsErr LaunchConfiguration :=
  match lookupLC st name with
  | none => .error lcNameNotFound
  | some c => .ok c

/-- Modelled from the spec: AutoScaling.CreateLaunchConfiguration. -/
def createLaunchConfigurationP (st : EnvState) (name imageId instanceType : String) :
    Except AwsErr EnvState :=
  .ok { st with launchConfigs :=
    if (lookupLC st name).isSome then st.launchConfigs
    else st.launchConfigs ++ [⟨name, imageId, instanceType⟩] }

/-- Modelled from the spec: AutoScaling.CreateAutoScalingGroup; a new group
starts with no instances. -/
def createAutoScalingGroupP (st : EnvState) (name launchConfigName : String)
    (minSize maxSize : Int) : Except AwsErr EnvState :=
  .ok { st with asgs :=
    if (lookupASG st name).isSome then st.asgs
    else st.asgs ++ [⟨name, minSize, maxSize, some launchConfigName, 0⟩] }

/-- Modelled from the spec: EC2.DescribeSecurityGroup; a missing group is
reported as a nil result, not an error. -/
def describeSecurityGroupP (st : EnvState) (name : String) :
    Except AwsErr (Option SecurityGroup) :=
  .ok (lookupSG st name)

/-- Modelled from the spec: EC2.CreateSecurityGroup, returning the new
group identifier (derived deterministically here). -/
def createSecurityGroupP (st : EnvState) (name description vpcID : String) :
    Except AwsErr (EnvState × String) :=
  let groupId := "sg-" ++ name
  .ok ({ st with securityGroups :=
          if (lookupSG st name).isSome then st.securityGroups
          else st.securityGroups ++ [⟨name, groupId⟩] }, groupId)

/-- Modelled from the spec: EC2.DeleteSecurityGroup. -/
def deleteSecurityGroupP (st : EnvState) (g : SecurityGroup) : Except AwsErr EnvState :=
  if st.securityGroups.any (fun g' => g'.groupId == g.groupId) then
    .ok (sgRemove st g.groupId)
  else .error sgNotFound

/-- Modelled from the spec: EC2.AuthorizeSecurityGroupIngressFromGroup; an
already-present rule is rejected with InvalidPermission.Duplicate. -/
def authorizeIngressP (st : EnvState) (groupId sourceGroupId : String) :
    Except AwsErr EnvState :=
  if st.ingress.contains (groupId, sourceGroupId) then .error duplicatePermission
  else .ok { st with ingress := (groupId, sourceGroupId) :: st.ingress }

/-- Modelled from the spec: ECS.DescribeCluster (the cluster is represented
by its name). -/
def describeClusterP (st : EnvState) (name : String) : Except AwsErr String :=
  if st.clusters.contains name then .ok name else .error clusterNotFound

/-- Modelled from the spec: ECS.CreateCluster. -/
def createClusterP (st : EnvState) (name : String) : Except AwsErr (EnvState × String) :=
  .ok ({ st with clusters :=
          if st.clusters.contains name then st.clusters else st.clusters ++ [name] }, name)

/-- Modelled from the spec: ECS.DeleteCluster. -/
def deleteClusterP (st : EnvState) (name : String) : Except AwsErr EnvState :=
  if st.clusters.contains name then
    .ok (clusterRemove st name)
  else .error clusterNotFound

/-- models.Environment (common/models/environment.go); fields not assigned
by a code path keep Go zero values. -/
structure Environment where
  EnvironmentID : String := ""
  EnvironmentName : String := ""
  ClusterCount : Int := 0
  InstanceSize : String := ""
  SecurityGroupID : String := ""
  OperatingSystem : String := ""
  AMIID : String := ""
  Links : List String := []
deriving DecidableEq

/-- Modelled from the spec: the Waiter (common/waitutils, not under src/):
invoke the check up to the retry budget; a check error fails the wait,
done succeeds, an exhausted budget fails with a timeout error carrying the
operation's descriptive name. -/
def waiterWait (name : String) :
    Nat → (EnvState → (Bool × Option AwsErr) × EnvState × List ProviderCall) →
    EnvState → Except AwsErr EnvState × List ProviderCall
  | 0, _, _ => (.error ⟨"", "Timeout on " ++ name⟩, [])
  | n + 1, check, st =>
    match check st with
    | ((_, some e), _, calls) => (.error e, calls)
    | ((true, none), st', calls) => (.ok st', calls)
    | ((false, none), st', calls) =>
      let (r, more) := waiterWait name n check st'
      (r, calls ++ more)

/-- The check closure of waitForAutoScalingGroupInactive: done once the
describe reports not found; any other describe error is fatal. -/
def asgInactiveCheck (name : String) (st : EnvState) :
    (Bool × Option AwsErr) × EnvState × List ProviderCall :=
  match describeAutoScalingGroupP st name with
  | .error e =>
    if ContainsErrMsg e "not found" then ((true, none), st, [.describeAutoScalingGroup name])
    else ((false, some e), st, [.describeAutoScalingGroup name])
  | .ok _ => ((false, none), st, [.describeAutoScalingGroup name])

/-- ECSEnvironmentManager.waitForAutoScalingGroupInactive: 50 retries. -/
def waitForAutoScalingGroupInactive (st : EnvState) (ecsEnvironmentID : String) :
    Except AwsErr EnvState × List ProviderCall :=
  let name := autoScalingGroupNameOf ecsEnvironmentID
  waiterWait ("Stop Autoscaling " ++ name) 50 (asgInactiveCheck name) st

/-- The check closure of waitForSecurityGroupDeleted: done once the delete
succeeds; any delete error means retry. -/
def sgDeletedCheck (g : SecurityGroup) (st : EnvState) :
    (Bool × Option AwsErr) × EnvState × List ProviderCall :=
  match deleteSecurityGroupP st g with
  | .ok st' => ((true, none), st', [.deleteSecurityGroup g.groupId])
  | .error _ => ((false, none), st, [.deleteSecurityGroup g.groupId])

/-- ECSEnvironmentManager.waitForSecurityGroupDeleted: 50 retries. -/
def waitForSecurityGroupDeleted (st : EnvState) (g : SecurityGroup) :
    Except AwsErr EnvState × List ProviderCall :=
  waiterWait ("SecurityGroup delete for " ++ g.groupName) 50 (sgDeletedCheck g) st

/-- The delete-path tolerance pattern of the source: a failing step whose
error matches the tolerated condition is treated as success with the state
unchanged. -/
def tolerate (st : EnvState) (r : Except AwsErr EnvState) (cond : AwsErr → Bool) :
    Except AwsErr EnvState :=
  match r with
  | .ok st' => .ok st'
  | .error e => if cond e then .ok st else .error e

/-- ECSEnvironmentManager.DeleteEnvironment: shrink the scaling bounds to
zero, delete the scaling group and the launch configuration (each step
tolerating already-absent resources), wait for the scaling group to
disappear, retry the security-group delete until it succeeds, then delete
the cluster (tolerating a missing cluster). -/
def DeleteEnvironment (st : EnvState) (environmentID : String) :
    Except AwsErr EnvState × List ProviderCall :=
  let ecsID := ecsEnvironmentIDOf environmentID
  let asgName := autoScalingGroupNameOf ecsID
  let lcName := launchConfigurationNameOf ecsID
  let sgName := securityGroupNameOf ecsID
  let c1 := ProviderCall.updateAutoScalingGroupMinSize asgName 0
  let c2 := ProviderCall.updateAutoScalingGroupMaxSize asgName 0
  let c3 := ProviderCall.deleteAutoScalingGroup asgName
  let c4 := ProviderCall.deleteLaunchConfiguration lcName
  match tolerate st (updateAutoScalingGroupMinSizeP st asgName 0)
      (fun e => ContainsErrMsg e "name not found" || ContainsErrMsg e "is pending delete") with
  | .error e => (.error e, [c1])
  | .ok st1 =>
  match tolerate st1 (updateAutoScalingGroupMaxSizeP st1 asgName 0)
      (fun e => ContainsErrMsg e "name not found" || ContainsErrMsg e "is pending delete") with
  | .error e => (.error e, [c1, c2])
  | .ok st2 =>
  match tolerate st2 (deleteAutoScalingGroupP st2 asgName)
      (fun e => ContainsErrMsg e "name not found") with
  | .error e => (.error e, [c1, c2, c3])
  | .ok st3 =>
  match tolerate st3 (deleteLaunchConfigurationP st3 lcName)
      (fun e => ContainsErrMsg e "name not found") with
  | .error e => (.error e, [c1, c2, c3, c4])
  | .ok st4 =>
  match waitForAutoScalingGroupInactive st4 ecsID with
  | (.error e, calls5) => (.error e, [c1, c2, c3, c4] ++ calls5)
  | (.ok st5, calls5) =>
  match describeSecurityGroupP st5 sgName with
  | .error e => (.error e, [c1, c2, c3, c4] ++ calls5 ++ [.describeSecurityGroup sgName])
  | .ok securityGroup =>
    let deleteClusterStep := fun (stc : EnvState) (base : List ProviderCall) =>
      match tolerate stc (deleteClusterP stc ecsID)
          (fun e => ContainsErrCode e "ClusterNotFoundException") with
      | .error e => ((.error e : Except AwsErr EnvState), base ++ [ProviderCall.deleteCluster ecsID])
      | .ok st' => ((.ok st' : Except AwsErr EnvState), base ++ [ProviderCall.deleteCluster ecsID])
    match securityGroup with
    | some g =>
      match waitForSecurityGroupDeleted st5 g with
      | (.error e, calls6) =>
        (.error e, [c1, c2, c3, c4] ++ calls5 ++ [.describeSecurityGroup sgName] ++ calls6)
      | (.ok st6, calls6) =>
        deleteClusterStep st6 ([c1, c2, c3, c4] ++ calls5 ++ [.describeSecurityGroup sgName] ++ calls6)
    | none =>
      deleteClusterStep st5 ([c1, c2, c3, c4] ++ calls5 ++ [.describeSecurityGroup sgName])

/-- ECSEnvironmentManager.populateModel step: describe the scaling group,
tolerating not found as a nil group. -/
def describeASGStep (st : EnvState) (asgName : String) :
    Except AwsErr (Option AutoScalingGroup) × List ProviderCall :=
  match describeAutoScalingGroupP st asgName with
  | .error e =>
    if ContainsErrMsg e "not found" then (.ok none, [.describeAutoScalingGroup asgName])
    else (.error e, [.describeAutoScalingGroup asgName])
  | .ok a => (.ok (some a), [.describeAutoScalingGroup asgName])

/-- ECSEnvironmentManager.populateModel step: describe the launch
configuration named by the scaling group, tolerating not found as nil; no
call is made when the group or its configuration name is nil. -/
def describeLCStep (st : EnvState) (asgOpt : Option AutoScalingGroup) :
    Except AwsErr (Option LaunchConfiguration) × List ProviderCall :=
  match asgOpt with
  | none => (.ok none, [])
  | some a =>
    match a.launchConfigurationName with
    | none => (.ok none, [])
    | some lcName =>
      match describeLaunchConfigurationP st lcName with
      | .error e =>
        if ContainsErrMsg e "not found" then (.ok none, [.describeLaunchConfiguration lcName])
        else (.error e, [.describeLaunchConfiguration lcName])
      | .ok c => (.ok (some c), [.describeLaunchConfiguration lcName])

/-- ECSEnvironmentManager.populateModel: assemble the result model from the
cluster and the independently described dependent resources; absent
dependents produce zero fields. -/
def populateModel (st : EnvState) (clusterName : String) :
    Except AwsErr Environment × List ProviderCall :=
  let ecsID := clusterName
  let asgName := autoScalingGroupNameOf ecsID
  let sgName := securityGroupNameOf ecsID
  match describeASGStep st asgName with
  | (.error e, calls) => (.error e, calls)
  | (.ok asgOpt, calls1) =>
  match describeLCStep st asgOpt with
  | (.error e, calls2) => (.error e, calls1 ++ calls2)
  | (.ok lcOpt, calls2) =>
    let clusterCount : Int :=
      match asgOpt with
      | some a => a.instances
      | none => 0
    let instanceSize : String :=
      match lcOpt with
      | some c => c.instanceType
      | none => ""
    let amiID : String :=
      match lcOpt with
      | some c => c.imageId
      | none => ""
    match describeSecurityGroupP st sgName with
    | .error e => (.error e, calls1 ++ calls2 ++ [.describeSecurityGroup sgName])
    | .ok sgOpt =>
      let securityGroupID : String :=
        match sgOpt with
        | some g => g.groupId
        | none => ""
      (.ok { EnvironmentID := l0EnvironmentIDOf ecsID,
             ClusterCount := clusterCount,
             InstanceSize := instanceSize,
             SecurityGroupID := securityGroupID,
             AMIID := amiID },
       calls1 ++ calls2 ++ [.describeSecurityGroup sgName])

/-- ECSEnvironmentManager.GetEnvironment: describe the cluster, translating
the provider not-found signals into the domain InvalidEnvironmentID error,
then populate the model. -/
def GetEnvironment (st : EnvState) (environmentID : String) :
    Except AwsErr Environment × List ProviderCall :=
  let ecsID := ecsEnvironmentIDOf environmentID
  match describeClusterP st ecsID with
  | .error e =>
    if ContainsErrCode e "ClusterNotFoundException" || ContainsErrMsg e "cluster not found" then
      (.error ⟨"InvalidEnvironmentID",
               "Environment with id " ++ environmentID ++ " was not found"⟩,
       [.describeCluster ecsID])
    else (.error e, [.describeCluster ecsID])
  | .ok cluster =>
    let (r, calls) := populateModel st cluster
    (r, .describeCluster ecsID :: calls)

/-- ECSEnvironmentManager.ListEnvironments: list clusters and keep those
under the namespace marker, populating only the logical ID. -/
def ListEnvironments (st : EnvState) :
    Except AwsErr (List Environment) × List ProviderCall :=
  let environments := (st.clusters.filter (fun c => strHasPre c l0Pre)).map
    (fun c => ({ EnvironmentID := l0EnvironmentIDOf c } : Environment))
  (.ok environments, [.describeClusters])

/-- The default Linux bootstrap template (the template text itself is
irrelevant to the claims). -/
def defaultLinuxUserDataTemplate : String := "default-linux-bootstrap"

/-- The default Windows bootstrap template. -/
def defaultWindowsUserDataTemplate : String := "default-windows-bootstrap"

/-- Modelled from the spec: renderUserData; template substitution of the
derived cluster name and the artifact bucket location into the template,
abstracted as a concatenation. -/
def renderUserData (ecsEnvironmentID userDataTemplate : String) : String :=
  userDataTemplate ++ "|" ++ ecsEnvironmentID ++ "|" ++ AWSS3Bucket

/-- ECSEnvironmentManager.CreateEnvironment: validate the operating system
(selecting default template and AMI), derive the IDs, render user data,
then create cluster, security group, propagation delay, self-referential
ingress, launch configuration and scaling group in order, finishing by
populating the result model. -/
def CreateEnvironment (st : EnvState)
    (environmentName instanceSize operatingSystem amiID : String)
    (minClusterCount : Int) (userDataTemplate : String) :
    Except AwsErr (EnvState × Environment) × List ProviderCall :=
  let osChoice : Option (String × String) :=
    if lowerStr operatingSystem = "linux" then
      some (defaultLinuxUserDataTemplate, AWSLinuxServiceAMI)
    else if lowerStr operatingSystem = "windows" then
      some (defaultWindowsUserDataTemplate, AWSWindowsServiceAMI)
    else none
  match osChoice with
  | none =>
    (.error ⟨"", "Operating system " ++ operatingSystem ++ " is not recognized"⟩, [])
  | some (defaultUserDataTemplate, defaultAMI) =>
    let environmentID := GenerateHashedEntityID environmentName
    let ecsID := ecsEnvironmentIDOf environmentID
    let tmpl := if userDataTemplate = "" then defaultUserDataTemplate else userDataTemplate
    let serviceAMI := if amiID ≠ "" then amiID else defaultAMI
    let userData := renderUserData ecsID tmpl
    let sgName := securityGroupNameOf ecsID
    let lcName := launchConfigurationNameOf ecsID
    let asgName := autoScalingGroupNameOf ecsID
    let description := "Auto-generated Layer0 Environment Security Group"
    match createClusterP st ecsID with
    | .error e => (.error e, [.createCluster ecsID])
    | .ok (st1, cluster) =>
    match createSecurityGroupP st1 sgName description AWSVPCID with
    | .error e => (.error e, [.createCluster ecsID, .createSecurityGroup sgName description AWSVPCID])
    | .ok (st2, groupID) =>
      -- Clock.Sleep: wait for the security group to propagate
      match authorizeIngressP st2 groupID groupID with
      | .error e =>
        (.error e, [.createCluster ecsID, .createSecurityGroup sgName description AWSVPCID,
                    .sleepPropagation, .authorizeSecurityGroupIngressFromGroup groupID groupID])
      | .ok st3 =>
        let securityGroups := [groupID, AWSAgentGroupID]
        match createLaunchConfigurationP st3 lcName serviceAMI instanceSize with
        | .error e =>
          (.error e, [.createCluster ecsID, .createSecurityGroup sgName description AWSVPCID,
                      .sleepPropagation, .authorizeSecurityGroupIngressFromGroup groupID groupID,
                      .createLaunchConfiguration lcName serviceAMI AWSECSInstanceProfile
                        instanceSize AWSKeyPair userData securityGroups])
        | .ok st4 =>
          let maxClusterCount := if minClusterCount > 0 then minClusterCount else 0
          match createAutoScalingGroupP st4 asgName lcName minClusterCount maxClusterCount with
          | .error e =>
            (.error e, [.createCluster ecsID, .createSecurityGroup sgName description AWSVPCID,
                        .sleepPropagation, .authorizeSecurityGroupIngressFromGroup groupID groupID,
                        .createLaunchConfiguration lcName serviceAMI AWSECSInstanceProfile
                          instanceSize AWSKeyPair userData securityGroups,
                        .createAutoScalingGroup asgName lcName minClusterCount maxClusterCount])
          | .ok st5 =>
            let (r, popCalls) := populateModel st5 cluster
            ((match r with
              | .error e => .error e
              | .ok env => .ok (st5, env)),
             [.createCluster ecsID, .createSecurityGroup sgName description AWSVPCID,
              .sleepPropagation, .authorizeSecurityGroupIngressFromGroup groupID groupID,
              .createLaunchConfiguration lcName serviceAMI AWSECSInstanceProfile
                instanceSize AWSKeyPair userData securityGroups,
              .createAutoScalingGroup asgName lcName minClusterCount maxClusterCount] ++ popCalls)

/-- ECSEnvironmentManager.updateEnvironmentMinCount: describe the scaling
group, raise the max bound first when the requested min exceeds it, then
set the min bound. -/
def updateEnvironmentMinCount (st : EnvState) (environmentID : String)
    (minClusterCount : Int) : Except AwsErr EnvState × List ProviderCall :=
  let ecsID := ecsEnvironmentIDOf environmentID
  let asgName := autoScalingGroupNameOf ecsID
  match describeAutoScalingGroupP st asgName with
  | .error e => (.error e, [.describeAutoScalingGroup asgName])
  | .ok asg =>
    if asg.maxSize < minClusterCount then
      match updateAutoScalingGroupMaxSizeP st asgName minClusterCount with
      | .error e =>
        (.error e, [.describeAutoScalingGroup asgName,
                    .updateAutoScalingGroupMaxSize asgName minClusterCount])
      | .ok st1 =>
        match updateAutoScalingGroupMinSizeP st1 asgName minClusterCount with
        | .error e =>
          (.error e, [.describeAutoScalingGroup asgName,
                      .updateAutoScalingGroupMaxSize asgName minClusterCount,
                      .updateAutoScalingGroupMinSize asgName minClusterCount])
        | .ok st2 =>
          (.ok st2, [.describeAutoScalingGroup asgName,
                     .updateAutoScalingGroupMaxSize asgName minClusterCount,
                     .updateAutoScalingGroupMinSize asgName minClusterCount])
    else
      match updateAutoScalingGroupMinSizeP st asgName minClusterCount with
      | .error e =>
        (.error e, [.describeAutoScalingGroup asgName,
                    .updateAutoScalingGroupMinSize asgName minClusterCount])
      | .ok st1 =>
        (.ok st1, [.describeAutoScalingGroup asgName,
                   .updateAutoScalingGroupMinSize asgName minClusterCount])

/-- ECSEnvironmentManager.getEnvironmentSecurityGroup: describe, and treat
a nil group as an error. -/
def getEnvironmentSecurityGroup (st : EnvState) (ecsEnvironmentID : String) :
    Except AwsErr SecurityGroup × List ProviderCall :=
  let name := securityGroupNameOf ecsEnvironmentID
  match describeSecurityGroupP st name with
  | .error e => (.error e, [.describeSecurityGroup name])
  | .ok none =>
    (.error ⟨"", "Security group for environment " ++ ecsEnvironmentID ++ " does not exist"⟩,
     [.describeSecurityGroup name])
  | .ok (some g) => (.ok g, [.describeSecurityGroup name])

/-- ECSEnvironmentManager.CreateEnvironmentLink: authorize ingress in both
directions between the two environments' security groups, tolerating
InvalidPermission.Duplicate in each direction. -/
def CreateEnvironmentLink (st : EnvState) (sourceEnvironmentID destEnvironmentID : String) :
    Except AwsErr EnvState × List ProviderCall :=
  let sourceECSID := ecsEnvironmentIDOf sourceEnvironmentID
  let destECSID := ecsEnvironmentIDOf destEnvironmentID
  match getEnvironmentSecurityGroup st sourceECSID with
  | (.error e, calls1) => (.error e, calls1)
  | (.ok sourceGroup, calls1) =>
  match getEnvironmentSecurityGroup st destECSID with
  | (.error e, calls2) => (.error e, calls1 ++ calls2)
  | (.ok destGroup, calls2) =>
    let a1 := ProviderCall.authorizeSecurityGroupIngressFromGroup
      sourceGroup.groupId destGroup.groupId
    let a2 := ProviderCall.authorizeSecurityGroupIngressFromGroup
      destGroup.groupId sourceGroup.groupId
    match (match authorizeIngressP st sourceGroup.groupId destGroup.groupId with
           | .error e =>
             if ContainsErrCode e "InvalidPermission.Duplicate" then Except.ok st
             else Except.error e
           | .ok st' => (.ok st' : Except AwsErr EnvState)) with
    | .error e => (.error e, calls1 ++ calls2 ++ [a1])
    | .ok st1 =>
      match (match authorizeIngressP st1 destGroup.groupId sourceGroup.groupId with
             | .error e =>
               if ContainsErrCode e "InvalidPermission.Duplicate" then Except.ok st1
               else Except.error e
             | .ok st' => (.ok st' : Except AwsErr EnvState)) with
      | .error e => (.error e, calls1 ++ calls2 ++ [a1, a2])
      | .ok st2 => (.ok st2, calls1 ++ calls2 ++ [a1, a2])

/-- The state effect of the capacity-update provider calls; read-only
calls leave the state unchanged.  Used to state bound invariants over
every intermediate state of an update trace. -/
def applyProviderCall (st : EnvState) : ProviderCall → EnvState
  | .updateAutoScalingGroupMinSize n v => asgSetMin st n v
  | .updateAutoScalingGroupMaxSize n v => asgSetMax st n v
  | _ => st

/-- Fold a call trace over the provider state. -/
def applyCalls (st : EnvState) (calls : List ProviderCall) : EnvState :=
  calls.foldl applyProviderCall st

/-! ## Concrete states used by witnesses and counterexamples -/

/-- A provider state with no resources. -/
def envStateEmpty : EnvState := ⟨[], [], [], [], []⟩

/-- A fully materialised environment with logical ID e1. -/
def envStateFull : EnvState :=
  { clusters := ["l0-e1"],
    asgs := [⟨"l0-e1--asg", 1, 2, some "l0-e1--lc", 1⟩],
    launchConfigs := [⟨"l0-e1--lc", "ami-1", "m3.medium"⟩],
    securityGroups := [⟨"l0-e1--env", "sg-l0-e1--env"⟩],
    ingress := [] }

/-- Two environments that only have security groups, for link scenarios. -/
def envStateLink : EnvState :=
  { clusters := ["l0-e1", "l0-e2"],
    asgs := [],
    launchConfigs := [],
    securityGroups := [⟨"l0-e1--env", "sg-a"⟩, ⟨"l0-e2--env", "sg-b"⟩],
    ingress := [] }

/-- An environment that only has a cluster. -/
def envStateClusterOnly : EnvState :=
  { clusters := ["l0-e1"], asgs := [], launchConfigs := [], securityGroups := [], ingress := [] }

/-- A tag table holding one record with a single tag. -/
def c3Table : Table := tableSet emptyTable "environment" "e1" (some [("k1", "x")])

/-- A tag table holding one task with its relation and identity tags. -/
def c4Table : Table :=
  tableSet emptyTable "task" "tsk1" (some [("environment_id", "env1"), ("arn", "arn1")])

/-- A task-provider state whose StopTask call reports a throttling error,
which is not a not-found condition. -/
def c4State : TaskState := ⟨c4Table, some ⟨"ThrottlingException", "Rate exceeded"⟩⟩

/-- A task-provider state with an empty tag table. -/
def tsEmpty : TaskState := ⟨emptyTable, none⟩

/-! ## Tag store lemmas -/

theorem tableSet_self (tbl : Table) (t i : String) (v : Option TagMap) :
    tableSet tbl t i v t i = v := by
  simp [tableSet]

theorem tableSet_other (tbl : Table) (t i t' i' : String) (v : Option TagMap)
    (h : ¬(t' = t ∧ i' = i)) : tableSet tbl t i v t' i' = tbl t' i' := by
  simp only [tableSet, if_neg h]

theorem containsKey_false_of_not_mem (k : String) (m : TagMap)
    (h : k ∉ m.map Prod.fst) : containsKey k m = false := by
  induction m with
  | nil => rfl
  | cons p rest ih =>
    simp only [List.map_cons, List.mem_cons, not_or] at h
    simp only [containsKey, List.any_cons, Bool.or_eq_false_iff]
    exact ⟨beq_eq_false_iff_ne.mpr (fun hpk => h.1 hpk.symm), ih h.2⟩

theorem eraseKey_cons_of_not_mem (k v : String) (rest : TagMap)
    (h : k ∉ rest.map Prod.fst) : eraseKey k ((k, v) :: rest) = rest := by
  simp only [eraseKey, List.filter_cons, beq_self_eq_true, Bool.not_true,
    Bool.false_eq_true, if_false]
  exact List.filter_eq_self.mpr (fun p hp => by
    simp only [Bool.not_eq_true', beq_eq_false_iff_ne, ne_eq]
    intro hk
    exact h (List.mem_map.mpr ⟨p, hp, hk⟩))

theorem Insert_existing (tbl : Table) (t i k v : String) (m : TagMap)
    (ht : t ≠ "") (hi : i ≠ "") (hm : tbl t i = some m) :
    (Insert tbl ⟨t, i, k, v⟩).1 = .ok (tableSet tbl t i (some (setKey k v m))) := by
  simp [Insert, insertKey, selectByTypeAndID, ht, hi, hm]

theorem Insert_new (tbl : Table) (t i k v : String) (hm : tbl t i = none) :
    (Insert tbl ⟨t, i, k, v⟩).1 = .ok (tableSet tbl t i (some [(k, v)])) := by
  simp [Insert, hm]

theorem SelectByTypeAndID_absent (tbl : Table) (t i : String)
    (ht : t ≠ "") (hi : i ≠ "") (hm : tbl t i = none) :
    (SelectByTypeAndID tbl t i).1 = .ok [] := by
  simp [SelectByTypeAndID, selectByTypeAndID, ht, hi, hm, noItemFound]

/-- After inserting a list of fresh, pairwise-distinct keys into an
existing record, the record holds the old tags followed by the new
pairs, and no other item of the table changes. -/
theorem insertAll_existing (t i : String) (ht : t ≠ "") (hi : i ≠ "") :
    ∀ (pairs : List (String × String)) (tbl : Table) (m : TagMap),
      tbl t i = some m →
      (∀ p ∈ pairs, containsKey p.1 m = false) →
      (pairs.map Prod.fst).Nodup →
      ∃ tbl', insertAll t i tbl pairs = .ok tbl' ∧
        tbl' t i = some (m ++ pairs) ∧
        ∀ t' i', ¬(t' = t ∧ i' = i) → tbl' t' i' = tbl t' i'
  | [], tbl, m, hm, _, _ => ⟨tbl, rfl, by simpa using hm, fun _ _ _ => rfl⟩
  | (k, v) :: rest, tbl, m, hm, hfresh, hnd => by
    have hk : containsKey k m = false := hfresh (k, v) (List.mem_cons_self _ _)
    have hins := Insert_existing tbl t i k v m ht hi hm
    have hset : setKey k v m = m ++ [(k, v)] := by
      simp [setKey, hk]
    rw [hset] at hins
    simp only [List.map_cons, List.nodup_cons] at hnd
    have hm1 : tableSet tbl t i (some (m ++ [(k, v)])) t i = some (m ++ [(k, v)]) :=
      tableSet_self ..
    have hfresh1 : ∀ p ∈ rest, containsKey p.1 (m ++ [(k, v)]) = false := by
      intro p hp
      have h1 : containsKey p.1 m = false := hfresh p (List.mem_cons_of_mem _ hp)
      have h2 : p.1 ≠ k := by
        intro hpk
        exact hnd.1 (hpk ▸ List.mem_map.mpr ⟨p, hp, rfl⟩)
      simp [containsKey, List.any_append] at h1 ⊢
      exact ⟨h1, fun h => absurd h.symm h2⟩
    obtain ⟨tbl', h1, h2, h3⟩ :=
      insertAll_existing t i ht hi rest (tableSet tbl t i (some (m ++ [(k, v)])))
        (m ++ [(k, v)]) hm1 hfresh1 hnd.2
    refine ⟨tbl', ?_, ?_, ?_⟩
    · simp only [insertAll, hins, h1]
    · simpa using h2
    · intro t' i' h
      rw [h3 t' i' h, tableSet_other tbl t i t' i' _ h]

/-- Deleting a front segment of a record's keys leaves exactly the
remaining tags. -/
theorem deleteAll_front (t i : String) (ht : t ≠ "") (hi : i ≠ "") :
    ∀ (m₁ m₂ : TagMap) (tbl : Table),
      tbl t i = some (m₁ ++ m₂) →
      ((m₁ ++ m₂).map Prod.fst).Nodup →
      m₂ ≠ [] →
      ∃ tbl', deleteAll t i tbl (m₁.map Prod.fst) = .ok tbl' ∧
        tbl' t i = some m₂
  | [], m₂, tbl, hm, _, _ => ⟨tbl, rfl, by simpa using hm⟩
  | (k, v) :: m₁, m₂, tbl, hm, hnd, hne => by
    simp only [List.cons_append, List.map_cons, List.nodup_cons] at hnd
    have hkmem : k ∉ (m₁ ++ m₂).map Prod.fst := hnd.1
    have hck : containsKey k ((k, v) :: (m₁ ++ m₂)) = true := by
      simp [containsKey]
    have herase : eraseKey k ((k, v) :: (m₁ ++ m₂)) = m₁ ++ m₂ :=
      eraseKey_cons_of_not_mem k v _ hkmem
    have hlen : (m₁ ++ m₂).length > 0 := by
      cases m₂ with
      | nil => exact absurd rfl hne
      | cons b l => simp
    have hdel : (Delete tbl t i k).1 =
        .ok (tableSet tbl t i (some (m₁ ++ m₂))) := by
      simp only [Delete, selectByTypeAndID, if_neg ht, if_neg hi, hm, hck, herase]
      simp [hck, herase, hlen, List.length_pos.mpr hne]
    obtain ⟨tbl', h1, h2⟩ :=
      deleteAll_front t i ht hi m₁ m₂ (tableSet tbl t i (some (m₁ ++ m₂)))
        (tableSet_self ..) hnd.2 hne
    refine ⟨tbl', ?_, h2⟩
    rw [List.map_cons, deleteAll, hdel]
    exact h1

/-- Deleting every key of a record removes the record entirely; the last
delete issues the item deletion. -/
theorem deleteAll_all (t i : String) (ht : t ≠ "") (hi : i ≠ "") :
    ∀ (m : TagMap) (tbl : Table),
      tbl t i = some m →
      (m.map Prod.fst).Nodup →
      m ≠ [] →
      ∃ tbl', deleteAll t i tbl (m.map Prod.fst) = .ok tbl' ∧
        tbl' t i = none
  | [], _, _, _, hne => absurd rfl hne
  | [(k, v)], tbl, hm, _, _ => by
    have hck : containsKey k [(k, v)] = true := by
      simp [containsKey]
    have herase : eraseKey k [(k, v)] = [] := by
      simp [eraseKey]
    have hdel : (Delete tbl t i k).1 = .ok (tableSet tbl t i none) := by
      simp [Delete, selectByTypeAndID, if_neg ht, if_neg hi, hm, hck, herase]
    refine ⟨tableSet tbl t i none, ?_, tableSet_self ..⟩
    simp only [List.map_cons, List.map_nil, deleteAll, hdel]
  | (k, v) :: (b, w) :: l, tbl, hm, hnd, _ => by
    simp only [List.map_cons, List.nodup_cons] at hnd
    have hck : containsKey k ((k, v) :: (b, w) :: l) = true := by
      simp [containsKey]
    have herase : eraseKey k ((k, v) :: (b, w) :: l) = (b, w) :: l := by
      refine eraseKey_cons_of_not_mem k v _ ?_
      simpa using hnd.1
    have hlen : ((b, w) :: l).length > 0 := by simp
    have hdel : (Delete tbl t i k).1 = .ok (tableSet tbl t i (some ((b, w) :: l))) := by
      simp only [Delete, selectByTypeAndID, if_neg ht, if_neg hi, hm, hck, herase]
      simp [hck, herase, hlen]
    obtain ⟨tbl', h1, h2⟩ :=
      deleteAll_all t i ht hi ((b, w) :: l) (tableSet tbl t i (some ((b, w) :: l)))
        (tableSet_self ..)
        (by rw [List.map_cons]; exact List.nodup_cons.mpr ⟨hnd.2.1, hnd.2.2⟩)
        (by simp)
    refine ⟨tbl', ?_, h2⟩
    rw [List.map_cons, deleteAll, hdel]
    simp only [List.map_cons] at h1
    exact h1

/-! ## Environment manager lemmas -/

theorem cm_asg_name_not_found : ContainsErrMsg asgNameNotFound "name not found" = true := by
  decide

theorem cm_asg_not_found : ContainsErrMsg asgNameNotFound "not found" = true := by
  decide

theorem cm_lc_name_not_found : ContainsErrMsg lcNameNotFound "name not found" = true := by
  decide

theorem cc_cluster_not_found : ContainsErrCode clusterNotFound "ClusterNotFoundException" = true := by
  decide

theorem cc_duplicate : ContainsErrCode duplicatePermission "InvalidPermission.Duplicate" = true := by
  decide

theorem find?_map_asg (l : List AutoScalingGroup) (n : String)
    (f : AutoScalingGroup → AutoScalingGroup) (hf : ∀ a, (f a).name = a.name) :
    (l.map f).find? (fun a => a.name == n) = (l.find? (fun a => a.name == n)).map f := by
  induction l with
  | nil => rfl
  | cons a l ih =>
    by_cases h : (a.name == n) = true
    · have hfa : ((f a).name == n) = true := by rw [hf a]; exact h
      rw [List.map_cons, List.find?_cons_of_pos (p := fun x : AutoScalingGroup => x.name == n) _ hfa,
        List.find?_cons_of_pos (p := fun x : AutoScalingGroup => x.name == n) _ h, Option.map_some']
    · have hfa : ¬((f a).name == n) = true := by rw [hf a]; exact h
      rw [List.map_cons, List.find?_cons_of_neg (p := fun x : AutoScalingGroup => x.name == n) _ hfa,
        List.find?_cons_of_neg (p := fun x : AutoScalingGroup => x.name == n) _ h, ih]

theorem lookupASG_asgSetMin_some (st : EnvState) (n : String) (v : Int)
    (a : AutoScalingGroup) (h : lookupASG st n = some a) :
    lookupASG (asgSetMin st n v) n = some { a with minSize := v } := by
  simp only [lookupASG] at h
  have ha := List.find?_some h
  simp only [lookupASG, asgSetMin]
  rw [find?_map_asg _ _ _ (fun b => by by_cases hb : (b.name == n) = true <;> simp [hb])]
  rw [h, Option.map_some']
  simp [ha]

theorem lookupASG_asgSetMax_some (st : EnvState) (n : String) (v : Int)
    (a : AutoScalingGroup) (h : lookupASG st n = some a) :
    lookupASG (asgSetMax st n v) n = some { a with maxSize := v } := by
  simp only [lookupASG] at h
  have ha := List.find?_some h
  simp only [lookupASG, asgSetMax]
  rw [find?_map_asg _ _ _ (fun b => by by_cases hb : (b.name == n) = true <;> simp [hb])]
  rw [h, Option.map_some']
  simp [ha]

theorem lookupASG_asgRemove (st : EnvState) (n : String) :
    lookupASG (asgRemove st n) n = none := by
  simp only [lookupASG, asgRemove]
  rw [List.find?_eq_none]
  intro a ha
  have h1 := List.of_mem_filter ha
  simpa using h1

theorem anySG_of_lookup (st : EnvState) (name : String) (g : SecurityGroup)
    (h : lookupSG st name = some g) :
    st.securityGroups.any (fun g' => g'.groupId == g.groupId) = true := by
  have hmem : g ∈ st.securityGroups := List.mem_of_find?_eq_some h
  exact List.any_eq_true.mpr ⟨g, hmem, by simp⟩

theorem delete_step_min (st : EnvState) (n : String) :
    ∃ s, tolerate st (updateAutoScalingGroupMinSizeP st n 0)
        (fun e => ContainsErrMsg e "name not found" || ContainsErrMsg e "is pending delete")
        = .ok s ∧
      (lookupASG s n).isSome = (lookupASG st n).isSome ∧
      s.launchConfigs = st.launchConfigs ∧
      s.securityGroups = st.securityGroups ∧
      s.clusters = st.clusters := by
  cases h : lookupASG st n with
  | none =>
    refine ⟨st, ?_, by rw [h], rfl, rfl, rfl⟩
    simp [updateAutoScalingGroupMinSizeP, h, tolerate, cm_asg_name_not_found]
  | some a =>
    refine ⟨asgSetMin st n 0, ?_, ?_, rfl, rfl, rfl⟩
    · simp [updateAutoScalingGroupMinSizeP, h, tolerate]
    · simp [lookupASG_asgSetMin_some st n 0 a h]

theorem delete_step_max (st : EnvState) (n : String) :
    ∃ s, tolerate st (updateAutoScalingGroupMaxSizeP st n 0)
        (fun e => ContainsErrMsg e "name not found" || ContainsErrMsg e "is pending delete")
        = .ok s ∧
      (lookupASG s n).isSome = (lookupASG st n).isSome ∧
      s.launchConfigs = st.launchConfigs ∧
      s.securityGroups = st.securityGroups ∧
      s.clusters = st.clusters := by
  cases h : lookupASG st n with
  | none =>
    refine ⟨st, ?_, by rw [h], rfl, rfl, rfl⟩
    simp [updateAutoScalingGroupMaxSizeP, h, tolerate, cm_asg_name_not_found]
  | some a =>
    refine ⟨asgSetMax st n 0, ?_, ?_, rfl, rfl, rfl⟩
    · simp [updateAutoScalingGroupMaxSizeP, h, tolerate]
    · simp [lookupASG_asgSetMax_some st n 0 a h]

theorem delete_step_asg (st : EnvState) (n : String) :
    ∃ s, tolerate st (deleteAutoScalingGroupP st n)
        (fun e => ContainsErrMsg e "name not found") = .ok s ∧
      lookupASG s n = none ∧
      s.launchConfigs = st.launchConfigs ∧
      s.securityGroups = st.securityGroups ∧
      s.clusters = st.clusters := by
  cases h : lookupASG st n with
  | none =>
    refine ⟨st, ?_, h, rfl, rfl, rfl⟩
    simp [deleteAutoScalingGroupP, h, tolerate, cm_asg_name_not_found]
  | some a =>
    refine ⟨asgRemove st n, ?_, lookupASG_asgRemove st n, rfl, rfl, rfl⟩
    simp [deleteAutoScalingGroupP, h, tolerate]

theorem delete_step_lc (st : EnvState) (n : String) :
    ∃ s, tolerate st (deleteLaunchConfigurationP st n)
        (fun e => ContainsErrMsg e "name not found") = .ok s ∧
      s.asgs = st.asgs ∧
      s.securityGroups = st.securityGroups ∧
      s.clusters = st.clusters := by
  cases h : lookupLC st n with
  | none =>
    refine ⟨st, ?_, rfl, rfl, rfl⟩
    simp [deleteLaunchConfigurationP, h, tolerate, cm_lc_name_not_found]
  | some c =>
    refine ⟨lcRemove st n, ?_, rfl, rfl, rfl⟩
    simp [deleteLaunchConfigurationP, h, tolerate]

theorem delete_step_cluster (st : EnvState) (n : String) :
    ∃ s, tolerate st (deleteClusterP st n)
        (fun e => ContainsErrCode e "ClusterNotFoundException") = .ok s := by
  by_cases h : n ∈ st.clusters
  · exact ⟨clusterRemove st n, by simp [deleteClusterP, h, tolerate]⟩
  · exact ⟨st, by simp [deleteClusterP, h, tolerate, cc_cluster_not_found]⟩

theorem waiterWait_first_true (name : String) (n : Nat)
    (check : EnvState → (Bool × Option AwsErr) × EnvState × List ProviderCall)
    (st s' : EnvState) (calls : List ProviderCall)
    (h : check st = ((true, none), s', calls)) :
    waiterWait name (n + 1) check st = (.ok s', calls) := by
  simp only [waiterWait, h]

theorem waitASG_inactive_of_absent (st : EnvState) (ecsID : String)
    (h : lookupASG st (autoScalingGroupNameOf ecsID) = none) :
    waitForAutoScalingGroupInactive st ecsID =
      (.ok st, [.describeAutoScalingGroup (autoScalingGroupNameOf ecsID)]) := by
  have hc : asgInactiveCheck (autoScalingGroupNameOf ecsID) st
      = ((true, none), st, [.describeAutoScalingGroup (autoScalingGroupNameOf ecsID)]) := by
    simp [asgInactiveCheck, describeAutoScalingGroupP, h, cm_asg_not_found]
  unfold waitForAutoScalingGroupInactive
  rw [show (50 : Nat) = 49 + 1 from rfl, waiterWait_first_true _ _ _ _ _ _ hc]

theorem waitSG_deleted_of_present (st : EnvState) (g : SecurityGroup)
    (h : st.securityGroups.any (fun g' => g'.groupId == g.groupId) = true) :
    waitForSecurityGroupDeleted st g =
      (.ok (sgRemove st g.groupId), [.deleteSecurityGroup g.groupId]) := by
  have hc : sgDeletedCheck g st
      = ((true, none), sgRemove st g.groupId, [.deleteSecurityGroup g.groupId]) := by
    simp [sgDeletedCheck, deleteSecurityGroupP, h]
  unfold waitForSecurityGroupDeleted
  rw [show (50 : Nat) = 49 + 1 from rfl, waiterWait_first_true _ _ _ _ _ _ hc]

theorem lookupASG_congr (s s' : EnvState) (n : String) (h : s.asgs = s'.asgs) :
    lookupASG s n = lookupASG s' n := by
  simp only [lookupASG, h]

theorem lookupSG_congr (s s' : EnvState) (n : String) (h : s.securityGroups = s'.securityGroups) :
    lookupSG s n = lookupSG s' n := by
  simp only [lookupSG, h]

/-- DeleteEnvironment never fails in the benign provider model: each step
either succeeds or reports the tolerated already-absent condition. -/
theorem deleteEnvironment_ok (st : EnvState) (environmentID : String) :
    ∃ st', (DeleteEnvironment st environmentID).1 = .ok st' := by
  obtain ⟨s1, h1, hA1, hL1, hG1, hC1⟩ :=
    delete_step_min st (autoScalingGroupNameOf (ecsEnvironmentIDOf environmentID))
  obtain ⟨s2, h2, hA2, hL2, hG2, hC2⟩ :=
    delete_step_max s1 (autoScalingGroupNameOf (ecsEnvironmentIDOf environmentID))
  obtain ⟨s3, h3, hA3, hL3, hG3, hC3⟩ :=
    delete_step_asg s2 (autoScalingGroupNameOf (ecsEnvironmentIDOf environmentID))
  obtain ⟨s4, h4, hS4, hG4, hC4⟩ :=
    delete_step_lc s3 (launchConfigurationNameOf (ecsEnvironmentIDOf environmentID))
  have hasg4 : lookupASG s4 (autoScalingGroupNameOf (ecsEnvironmentIDOf environmentID)) = none := by
    rw [lookupASG_congr s4 s3 _ hS4, hA3]
  have hwait := waitASG_inactive_of_absent s4 (ecsEnvironmentIDOf environmentID) hasg4
  cases hg : lookupSG s4 (securityGroupNameOf (ecsEnvironmentIDOf environmentID)) with
  | none =>
    obtain ⟨s7, h7⟩ := delete_step_cluster s4 (ecsEnvironmentIDOf environmentID)
    refine ⟨s7, ?_⟩
    simp only [DeleteEnvironment, h1, h2, h3, h4, hwait, describeSecurityGroupP, hg, h7]
  | some g =>
    have hany := anySG_of_lookup s4 _ g hg
    have hsgw := waitSG_deleted_of_present s4 g hany
    obtain ⟨s7, h7⟩ := delete_step_cluster (sgRemove s4 g.groupId) (ecsEnvironmentIDOf environmentID)
    refine ⟨s7, ?_⟩
    simp only [DeleteEnvironment, h1, h2, h3, h4, hwait, describeSecurityGroupP, hg, hsgw, h7]

/-! ## Task provider lemmas -/

theorem SelectByTypeAndID_present (tbl : Table) (t i : String) (m : TagMap)
    (ht : t ≠ "") (hi : i ≠ "") (hm : tbl t i = some m) :
    (SelectByTypeAndID tbl t i).1 = .ok (DynamoTagSchema.ToTags ⟨t, i, m⟩) := by
  simp [SelectByTypeAndID, selectByTypeAndID, ht, hi, hm]

theorem stopTask_ok (st : TaskState) (c t : String) : stopTask st c t = .ok () := by
  unfold stopTask
  cases st.stopTaskErr with
  | none => rfl
  | some e =>
    dsimp only []
    split <;> rfl

theorem deleteTagList_toTags (t i : String) :
    ∀ (m : TagMap) (tbl : Table),
      deleteTagList tbl (DynamoTagSchema.ToTags ⟨t, i, m⟩) = deleteAll t i tbl (m.map Prod.fst)
  | [], _ => rfl
  | (k, v) :: rest, tbl => by
    show deleteTagList tbl
        (({ EntityType := t, EntityID := i, Key := k, Value := v } : Tag) ::
          DynamoTagSchema.ToTags ⟨t, i, rest⟩) = _
    simp only [deleteTagList, deleteAll, List.map_cons]
    cases hD : (Delete tbl t i k).1 with
    | error e => rfl
    | ok tbl' => exact deleteTagList_toTags t i rest tbl'

theorem taskDelete_ok (ts : TaskState) (taskID : String)
    (hwf : ∀ m, ts.tagTable "task" taskID = some m → (m.map Prod.fst).Nodup) :
    ∃ ts', TaskDelete ts taskID = .ok ts' ∧
      (ts'.tagTable "task" taskID = none ∨ ts'.tagTable = ts.tagTable) := by
  by_cases hid : taskID = ""
  · refine ⟨ts, ?_, Or.inr rfl⟩
    simp [TaskDelete, lookupEntityEnvironmentID, SelectByTypeAndID, selectByTypeAndID, hid]
  · cases hm : ts.tagTable "task" taskID with
    | none =>
      refine ⟨ts, ?_, Or.inr rfl⟩
      have hsel := SelectByTypeAndID_absent ts.tagTable "task" taskID (by decide) hid hm
      simp [TaskDelete, lookupEntityEnvironmentID, hsel]
    | some m =>
      have hsel := SelectByTypeAndID_present ts.tagTable "task" taskID m (by decide) hid hm
      cases henv : (DynamoTagSchema.ToTags ⟨"task", taskID, m⟩).find?
          (fun tg => tg.Key == "environment_id") with
      | none =>
        refine ⟨ts, ?_, Or.inr rfl⟩
        simp [TaskDelete, lookupEntityEnvironmentID, hsel, henv]
      | some tgEnv =>
        cases harn : (DynamoTagSchema.ToTags ⟨"task", taskID, m⟩).find?
            (fun tg => tg.Key == "arn") with
        | none =>
          refine ⟨ts, ?_, Or.inr rfl⟩
          simp [TaskDelete, lookupEntityEnvironmentID, lookupTaskARN, hsel, henv, harn]
        | some tgArn =>
          have hne : m ≠ [] := by
            intro hnil
            rw [hnil] at henv
            simp [DynamoTagSchema.ToTags] at henv
          obtain ⟨tbl', hdel, hnone⟩ :=
            deleteAll_all "task" taskID (by decide) hid m ts.tagTable hm (hwf m hm) hne
          refine ⟨{ ts with tagTable := tbl' }, ?_, Or.inl hnone⟩
          simp [TaskDelete, lookupEntityEnvironmentID, lookupTaskARN, hsel, henv, harn,
            stopTask_ok, deleteEntityTags, deleteTagList_toTags, hdel]

/-! ## Claim theorems -/

/-- C1: for the entity kinds present in the source (environments and
tasks), Delete called twice in succession — including on a never-created
logical ID — returns success both times: every step that finds its
resource already absent treats the provider's not-found or pending-delete
response as success, and the task path returns success when its tag
lookups find nothing. -/
theorem C1_delete_twice_never_errors (st : EnvState) (environmentID : String)
    (ts : TaskState) (taskID : String)
    (hwf : ∀ m, ts.tagTable "task" taskID = some m → (m.map Prod.fst).Nodup) :
    (∃ st1 st2, (DeleteEnvironment st environmentID).1 = .ok st1 ∧
      (DeleteEnvironment st1 environmentID).1 = .ok st2) ∧
    (∃ ts1 ts2, TaskDelete ts taskID = .ok ts1 ∧ TaskDelete ts1 taskID = .ok ts2) := by
  constructor
  · obtain ⟨st1, h1⟩ := deleteEnvironment_ok st environmentID
    obtain ⟨st2, h2⟩ := deleteEnvironment_ok st1 environmentID
    exact ⟨st1, st2, h1, h2⟩
  · obtain ⟨ts1, h1, hd⟩ := taskDelete_ok ts taskID hwf
    have hwf1 : ∀ m, ts1.tagTable "task" taskID = some m → (m.map Prod.fst).Nodup := by
      intro m hm
      cases hd with
      | inl hnone => rw [hnone] at hm; exact Option.noConfusion hm
      | inr heq => exact hwf m (by rw [← heq]; exact hm)
    obtain ⟨ts2, h2, _⟩ := taskDelete_ok ts1 taskID hwf1
    exact ⟨ts1, ts2, h1, h2⟩

/-- C1 witness: a concrete double delete of a fully materialised
environment and a double delete of a never-created task ID. -/
theorem C1_delete_twice_never_errors_witness :
    (∃ st1 st2, (DeleteEnvironment envStateFull "e1").1 = .ok st1 ∧
      (DeleteEnvironment st1 "e1").1 = .ok st2) ∧
    (∃ ts1 ts2, TaskDelete tsEmpty "tsk1" = .ok ts1 ∧ TaskDelete ts1 "tsk1" = .ok ts2) :=
  C1_delete_twice_never_errors envStateFull "e1" tsEmpty "tsk1"
    (fun _ h => Option.noConfusion h)

/-- C2: inserting N distinct keys for one (entityType, entityID) and then
deleting all N keys leaves SelectByTypeAndID returning an empty result;
the record is gone exactly after the last delete and still exists after
every proper front segment of the deletes. -/
theorem C2_record_dies_with_last_tag (t i : String) (ht : t ≠ "") (hi : i ≠ "")
    (tbl : Table) (h0 : tbl t i = none) (pairs : List (String × String))
    (hnd : (pairs.map Prod.fst).Nodup) :
    ∃ tbl1 tbl2, insertAll t i tbl pairs = .ok tbl1 ∧
      deleteAll t i tbl1 (pairs.map Prod.fst) = .ok tbl2 ∧
      tbl2 t i = none ∧
      (SelectByTypeAndID tbl2 t i).1 = .ok [] ∧
      ∀ n, n < pairs.length →
        ∃ tblp, deleteAll t i tbl1 ((pairs.map Prod.fst).take n) = .ok tblp ∧
          tblp t i ≠ none := by
  cases pairs with
  | nil =>
    refine ⟨tbl, tbl, rfl, rfl, h0, SelectByTypeAndID_absent tbl t i ht hi h0, ?_⟩
    intro n hn
    simp at hn
  | cons p rest =>
    obtain ⟨k, v⟩ := p
    have hins1 := Insert_new tbl t i k v h0
    have h1 : (tableSet tbl t i (some [(k, v)])) t i = some [(k, v)] := tableSet_self ..
    simp only [List.map_cons, List.nodup_cons] at hnd
    have hfresh : ∀ q ∈ rest, containsKey q.1 [(k, v)] = false := by
      intro q hq
      simp only [containsKey, List.any_cons, List.any_nil, Bool.or_false]
      refine beq_eq_false_iff_ne.mpr ?_
      intro hkq
      exact hnd.1 (by rw [hkq]; exact List.mem_map.mpr ⟨q, hq, rfl⟩)
    obtain ⟨tbl1, hInsRest, hTbl1, _⟩ :=
      insertAll_existing t i ht hi rest (tableSet tbl t i (some [(k, v)])) [(k, v)]
        h1 hfresh hnd.2
    have hTbl1' : tbl1 t i = some ((k, v) :: rest) := by simpa using hTbl1
    have hinsAll : insertAll t i tbl ((k, v) :: rest) = .ok tbl1 := by
      simp only [insertAll, hins1, hInsRest]
    have hndFull : (((k, v) :: rest).map Prod.fst).Nodup := by
      simp only [List.map_cons, List.nodup_cons]
      exact hnd
    obtain ⟨tbl2, hdelAll, hNone⟩ :=
      deleteAll_all t i ht hi ((k, v) :: rest) tbl1 hTbl1' hndFull (by simp)
    refine ⟨tbl1, tbl2, hinsAll, hdelAll, hNone,
      SelectByTypeAndID_absent tbl2 t i ht hi hNone, ?_⟩
    intro n hn
    have hsplit : (k, v) :: rest =
        (((k, v) :: rest).take n) ++ (((k, v) :: rest).drop n) :=
      (List.take_append_drop ..).symm
    have hdropne : ((k, v) :: rest).drop n ≠ [] := by
      intro hd
      rw [List.drop_eq_nil_iff] at hd
      omega
    obtain ⟨tblp, hdelp, hTblp⟩ :=
      deleteAll_front t i ht hi (((k, v) :: rest).take n) (((k, v) :: rest).drop n) tbl1
        (by rw [← hsplit]; exact hTbl1') (by rw [← hsplit]; exact hndFull) hdropne
    refine ⟨tblp, ?_, by simp [hTblp]⟩
    rw [List.map_take] at hdelp
    exact hdelp

/-- C2 witness: two tags inserted for one environment record, then both
keys deleted; the record vanishes with the last key and the intermediate
state still holds the record. -/
theorem C2_record_dies_with_last_tag_witness :
    ∃ tbl1 tbl2,
      insertAll "environment" "e1" emptyTable [("name", "prod"), ("os", "linux")] = .ok tbl1 ∧
      deleteAll "environment" "e1" tbl1
        ([("name", "prod"), ("os", "linux")].map Prod.fst) = .ok tbl2 ∧
      tbl2 "environment" "e1" = none ∧
      (SelectByTypeAndID tbl2 "environment" "e1").1 = .ok [] ∧
      ∀ n, n < ([("name", "prod"), ("os", "linux")] : List (String × String)).length →
        ∃ tblp, deleteAll "environment" "e1" tbl1
            (([("name", "prod"), ("os", "linux")].map Prod.fst).take n) = .ok tblp ∧
          tblp "environment" "e1" ≠ none :=
  C2_record_dies_with_last_tag "environment" "e1" (by decide) (by decide) emptyTable rfl
    [("name", "prod"), ("os", "linux")] (by decide)

/-- C3 (amended): Delete is a successful no-op when the record exists and
the key is absent, deletes the whole record when the key is the last one
remaining, but when no record exists at all it fails with the backing
store's no-item-found error instead of succeeding. -/
theorem C3_delete_noop_and_last_key (tbl : Table) (t i k : String)
    (ht : t ≠ "") (hi : i ≠ "") :
    (∀ m, tbl t i = some m → containsKey k m = false → (Delete tbl t i k).1 = .ok tbl) ∧
    (∀ v, tbl t i = some [(k, v)] → (Delete tbl t i k).1 = .ok (tableSet tbl t i none)) ∧
    (tbl t i = none → (Delete tbl t i k).1 = .error noItemFound) := by
  refine ⟨?_, ?_, ?_⟩
  · intro m hm hck
    simp [Delete, selectByTypeAndID, ht, hi, hm, hck]
  · intro v hm
    have hck : containsKey k [(k, v)] = true := by simp [containsKey]
    have her : eraseKey k [(k, v)] = [] := by simp [eraseKey]
    simp [Delete, selectByTypeAndID, ht, hi, hm, hck, her]
  · intro hm
    simp [Delete, selectByTypeAndID, ht, hi, hm]

/-- C3 counterexample: Delete on a wholly absent record is not a success —
it surfaces the backing store's no-item-found error, because Delete reads
through the validating private select that does not tolerate absence. -/
theorem C3_counterexample_absent_record_errors :
    (Delete emptyTable "environment" "e1" "name").1 = .error noItemFound := rfl

/-- C3 witness: concrete no-op delete of an absent key and concrete
whole-record delete of the last key. -/
theorem C3_delete_noop_and_last_key_witness :
    (Delete c3Table "environment" "e1" "absent").1 = .ok c3Table ∧
    (Delete c3Table "environment" "e1" "k1").1 =
      .ok (tableSet c3Table "environment" "e1" none) := by
  constructor
  · exact (C3_delete_noop_and_last_key c3Table "environment" "e1" "absent"
      (by decide) (by decide)).1 [("k1", "x")] rfl (by decide)
  · exact (C3_delete_noop_and_last_key c3Table "environment" "e1" "k1"
      (by decide) (by decide)).2.1 "x" rfl

/-- C4: the stop-task call swallows every provider error (the branch for
non-tolerated errors falls through to return nil), so with a throttling
error from the provider, Delete still reports success and the task's tags
are deleted — contradicting the documented propagate-unchanged policy. -/
theorem C4_stopTask_error_swallowed :
    ∃ ts', TaskDelete c4State "tsk1" = .ok ts' ∧ ts'.tagTable "task" "tsk1" = none := by
  refine ⟨_, rfl, ?_⟩
  rfl

/-- C9 (amended): the operations that read through the private select —
Delete and SelectByTypeAndID — fail locally on an empty entityType or
entityID and send nothing to the backing store; Insert, by contrast, does
not validate (see the counterexample). -/
theorem C9_read_paths_validate_locally (tbl : Table) (t i k : String)
    (h : t = "" ∨ i = "") :
    ((∃ e, (Delete tbl t i k).1 = .error e) ∧ (Delete tbl t i k).2 = []) ∧
    ((∃ e, (SelectByTypeAndID tbl t i).1 = .error e) ∧ (SelectByTypeAndID tbl t i).2 = []) := by
  rcases h with ht | hi
  · subst ht
    exact ⟨⟨⟨_, rfl⟩, rfl⟩, ⟨⟨_, rfl⟩, rfl⟩⟩
  · subst hi
    by_cases ht : t = ""
    · subst ht
      exact ⟨⟨⟨_, rfl⟩, rfl⟩, ⟨⟨_, rfl⟩, rfl⟩⟩
    · have hmsg : ¬("Failed to select tags: EntityID is required" = "dynamo: no item found") := by
        decide
      refine ⟨⟨⟨⟨"", "Failed to select tags: EntityID is required"⟩, ?_⟩, ?_⟩,
        ⟨⟨⟨"", "Failed to select tags: EntityID is required"⟩, ?_⟩, ?_⟩⟩ <;>
        simp [Delete, SelectByTypeAndID, selectByTypeAndID, ht, hmsg]

/-- C9 counterexample: Insert with an empty entityType issues its
conditional Put to the backing store — no local validation error and a
non-empty request trace. -/
theorem C9_counterexample_insert_not_validated :
    (Insert emptyTable ⟨"", "e1", "k", "v"⟩).2 =
      [.putIfAbsent ⟨"", "e1", [("k", "v")]⟩] ∧
    (Insert emptyTable ⟨"", "e1", "k", "v"⟩).1 =
      .ok (tableSet emptyTable "" "e1" (some [("k", "v")])) :=
  ⟨rfl, rfl⟩

/-- C9 witness: concrete empty-entityType calls fail locally with an empty
request trace. -/
theorem C9_read_paths_validate_locally_witness :
    ((∃ e, (Delete emptyTable "" "x" "k").1 = .error e) ∧
      (Delete emptyTable "" "x" "k").2 = []) ∧
    ((∃ e, (SelectByTypeAndID emptyTable "" "x").1 = .error e) ∧
      (SelectByTypeAndID emptyTable "" "x").2 = []) :=
  C9_read_paths_validate_locally emptyTable "" "x" "k" (Or.inl rfl)

/-- C5: with all four provider resources present, DeleteEnvironment issues
exactly this call sequence: set the scaling group's min to zero, set its
max to zero, delete the scaling group, delete the launch configuration,
poll the scaling group until absent, locate the security group, delete the
security group via the waiter, and finally delete the cluster — and the
whole delete succeeds. -/
theorem C5_delete_call_order (st : EnvState) (environmentID : String)
    (a : AutoScalingGroup) (c : LaunchConfiguration) (g : SecurityGroup)
    (ha : lookupASG st (autoScalingGroupNameOf (ecsEnvironmentIDOf environmentID)) = some a)
    (hc : lookupLC st (launchConfigurationNameOf (ecsEnvironmentIDOf environmentID)) = some c)
    (hg : lookupSG st (securityGroupNameOf (ecsEnvironmentIDOf environmentID)) = some g)
    (hcl : ecsEnvironmentIDOf environmentID ∈ st.clusters) :
    (DeleteEnvironment st environmentID).2 =
      [.updateAutoScalingGroupMinSize (autoScalingGroupNameOf (ecsEnvironmentIDOf environmentID)) 0,
       .updateAutoScalingGroupMaxSize (autoScalingGroupNameOf (ecsEnvironmentIDOf environmentID)) 0,
       .deleteAutoScalingGroup (autoScalingGroupNameOf (ecsEnvironmentIDOf environmentID)),
       .deleteLaunchConfiguration (launchConfigurationNameOf (ecsEnvironmentIDOf environmentID)),
       .describeAutoScalingGroup (autoScalingGroupNameOf (ecsEnvironmentIDOf environmentID)),
       .describeSecurityGroup (securityGroupNameOf (ecsEnvironmentIDOf environmentID)),
       .deleteSecurityGroup g.groupId,
       .deleteCluster (ecsEnvironmentIDOf environmentID)] ∧
    ∃ st', (DeleteEnvironment st environmentID).1 = .ok st' := by
  have h1 : tolerate st
      (updateAutoScalingGroupMinSizeP st (autoScalingGroupNameOf (ecsEnvironmentIDOf environmentID)) 0)
      (fun e => ContainsErrMsg e "name not found" || ContainsErrMsg e "is pending delete")
      = .ok (asgSetMin st (autoScalingGroupNameOf (ecsEnvironmentIDOf environmentID)) 0) := by
    simp [updateAutoScalingGroupMinSizeP, ha, tolerate]
  have hA1 := lookupASG_asgSetMin_some st
    (autoScalingGroupNameOf (ecsEnvironmentIDOf environmentID)) 0 a ha
  have h2 : tolerate (asgSetMin st (autoScalingGroupNameOf (ecsEnvironmentIDOf environmentID)) 0)
      (updateAutoScalingGroupMaxSizeP
        (asgSetMin st (autoScalingGroupNameOf (ecsEnvironmentIDOf environmentID)) 0)
        (autoScalingGroupNameOf (ecsEnvironmentIDOf environmentID)) 0)
      (fun e => ContainsErrMsg e "name not found" || ContainsErrMsg e "is pending delete")
      = .ok (asgSetMax (asgSetMin st (autoScalingGroupNameOf (ecsEnvironmentIDOf environmentID)) 0)
          (autoScalingGroupNameOf (ecsEnvironmentIDOf environmentID)) 0) := by
    simp [updateAutoScalingGroupMaxSizeP, hA1, tolerate]
  have hA2 := lookupASG_asgSetMax_some
    (asgSetMin st (autoScalingGroupNameOf (ecsEnvironmentIDOf environmentID)) 0)
    (autoScalingGroupNameOf (ecsEnvironmentIDOf environmentID)) 0 _ hA1
  have h3 : tolerate
      (asgSetMax (asgSetMin st (autoScalingGroupNameOf (ecsEnvironmentIDOf environmentID)) 0)
        (autoScalingGroupNameOf (ecsEnvironmentIDOf environmentID)) 0)
      (deleteAutoScalingGroupP
        (asgSetMax (asgSetMin st (autoScalingGroupNameOf (ecsEnvironmentIDOf environmentID)) 0)
          (autoScalingGroupNameOf (ecsEnvironmentIDOf environmentID)) 0)
        (autoScalingGroupNameOf (ecsEnvironmentIDOf environmentID)))
      (fun e => ContainsErrMsg e "name not found")
      = .ok (asgRemove
          (asgSetMax (asgSetMin st (autoScalingGroupNameOf (ecsEnvironmentIDOf environmentID)) 0)
            (autoScalingGroupNameOf (ecsEnvironmentIDOf environmentID)) 0)
          (autoScalingGroupNameOf (ecsEnvironmentIDOf environmentID))) := by
    simp [deleteAutoScalingGroupP, hA2, tolerate]
  set s3 := asgRemove
    (asgSetMax (asgSetMin st (autoScalingGroupNameOf (ecsEnvironmentIDOf environmentID)) 0)
      (autoScalingGroupNameOf (ecsEnvironmentIDOf environmentID)) 0)
    (autoScalingGroupNameOf (ecsEnvironmentIDOf environmentID)) with hs3
  have hc3 : lookupLC s3 (launchConfigurationNameOf (ecsEnvironmentIDOf environmentID)) = some c := hc
  have h4 : tolerate s3
      (deleteLaunchConfigurationP s3 (launchConfigurationNameOf (ecsEnvironmentIDOf environmentID)))
      (fun e => ContainsErrMsg e "name not found")
      = .ok (lcRemove s3 (launchConfigurationNameOf (ecsEnvironmentIDOf environmentID))) := by
    simp [deleteLaunchConfigurationP, hc3, tolerate]
  set s4 := lcRemove s3 (launchConfigurationNameOf (ecsEnvironmentIDOf environmentID)) with hs4
  have hasg4 : lookupASG s4 (autoScalingGroupNameOf (ecsEnvironmentIDOf environmentID)) = none := by
    rw [hs4, hs3]
    exact lookupASG_asgRemove ..
  have hwait := waitASG_inactive_of_absent s4 (ecsEnvironmentIDOf environmentID) hasg4
  have hg4 : lookupSG s4 (securityGroupNameOf (ecsEnvironmentIDOf environmentID)) = some g := hg
  have hany := anySG_of_lookup s4 _ g hg4
  have hsgw := waitSG_deleted_of_present s4 g hany
  set s6 := sgRemove s4 g.groupId with hs6
  have hcl6 : ecsEnvironmentIDOf environmentID ∈ s6.clusters := hcl
  have hclstep : tolerate s6 (deleteClusterP s6 (ecsEnvironmentIDOf environmentID))
      (fun e => ContainsErrCode e "ClusterNotFoundException")
      = .ok (clusterRemove s6 (ecsEnvironmentIDOf environmentID)) := by
    simp [deleteClusterP, hcl6, tolerate]
  constructor
  · simp only [DeleteEnvironment, h1, h2, h3, h4, hwait, describeSecurityGroupP, hg4,
      hsgw, hclstep]
    simp
  · refine ⟨clusterRemove s6 (ecsEnvironmentIDOf environmentID), ?_⟩
    simp only [DeleteEnvironment, h1, h2, h3, h4, hwait, describeSecurityGroupP, hg4,
      hsgw, hclstep]

/-- C5 witness: concrete delete of a fully materialised environment with
the exact call sequence. -/
theorem C5_delete_call_order_witness :
    (DeleteEnvironment envStateFull "e1").2 =
      [.updateAutoScalingGroupMinSize "l0-e1--asg" 0,
       .updateAutoScalingGroupMaxSize "l0-e1--asg" 0,
       .deleteAutoScalingGroup "l0-e1--asg",
       .deleteLaunchConfiguration "l0-e1--lc",
       .describeAutoScalingGroup "l0-e1--asg",
       .describeSecurityGroup "l0-e1--env",
       .deleteSecurityGroup "sg-l0-e1--env",
       .deleteCluster "l0-e1"] ∧
    ∃ st', (DeleteEnvironment envStateFull "e1").1 = .ok st' :=
  C5_delete_call_order envStateFull "e1"
    ⟨"l0-e1--asg", 1, 2, some "l0-e1--lc", 1⟩
    ⟨"l0-e1--lc", "ami-1", "m3.medium"⟩
    ⟨"l0-e1--env", "sg-l0-e1--env"⟩
    rfl rfl rfl (by decide)

/-- C6 (amended): CreateEnvironment with a recognized operating system
issues create cluster, create security group, propagation delay,
self-referential ingress, create launch configuration, create scaling
group as its first six provider calls, in this order; an unrecognized
operating system fails before any provider call; for linux with no
explicit AMI the default Linux AMI is used; the scaling group is created
with min equal to the requested count (whatever its sign) and max equal to
the count when positive and zero otherwise. -/
theorem C6_create_call_order (st : EnvState)
    (environmentName instanceSize operatingSystem amiID : String)
    (minClusterCount : Int) (userDataTemplate : String) :
    (lowerStr operatingSystem ≠ "linux" → lowerStr operatingSystem ≠ "windows" →
      (∃ e, (CreateEnvironment st environmentName instanceSize operatingSystem amiID
          minClusterCount userDataTemplate).1 = .error e) ∧
      (CreateEnvironment st environmentName instanceSize operatingSystem amiID
          minClusterCount userDataTemplate).2 = []) ∧
    (lowerStr operatingSystem = "linux" →
      ("sg-" ++ securityGroupNameOf (ecsEnvironmentIDOf (GenerateHashedEntityID environmentName)),
       "sg-" ++ securityGroupNameOf (ecsEnvironmentIDOf (GenerateHashedEntityID environmentName)))
        ∉ st.ingress →
      ((CreateEnvironment st environmentName instanceSize operatingSystem amiID
          minClusterCount userDataTemplate).2).take 6 =
        [.createCluster (ecsEnvironmentIDOf (GenerateHashedEntityID environmentName)),
         .createSecurityGroup
           (securityGroupNameOf (ecsEnvironmentIDOf (GenerateHashedEntityID environmentName)))
           "Auto-generated Layer0 Environment Security Group" AWSVPCID,
         .sleepPropagation,
         .authorizeSecurityGroupIngressFromGroup
           ("sg-" ++ securityGroupNameOf (ecsEnvironmentIDOf (GenerateHashedEntityID environmentName)))
           ("sg-" ++ securityGroupNameOf (ecsEnvironmentIDOf (GenerateHashedEntityID environmentName))),
         .createLaunchConfiguration
           (launchConfigurationNameOf (ecsEnvironmentIDOf (GenerateHashedEntityID environmentName)))
           (if amiID ≠ "" then amiID else AWSLinuxServiceAMI)
           AWSECSInstanceProfile instanceSize AWSKeyPair
           (renderUserData (ecsEnvironmentIDOf (GenerateHashedEntityID environmentName))
             (if userDataTemplate = "" then defaultLinuxUserDataTemplate else userDataTemplate))
           ["sg-" ++ securityGroupNameOf (ecsEnvironmentIDOf (GenerateHashedEntityID environmentName)),
            AWSAgentGroupID],
         .createAutoScalingGroup
           (autoScalingGroupNameOf (ecsEnvironmentIDOf (GenerateHashedEntityID environmentName)))
           (launchConfigurationNameOf (ecsEnvironmentIDOf (GenerateHashedEntityID environmentName)))
           minClusterCount (if minClusterCount > 0 then minClusterCount else 0)]) ∧
    (lowerStr operatingSystem = "windows" →
      ("sg-" ++ securityGroupNameOf (ecsEnvironmentIDOf (GenerateHashedEntityID environmentName)),
       "sg-" ++ securityGroupNameOf (ecsEnvironmentIDOf (GenerateHashedEntityID environmentName)))
        ∉ st.ingress →
      ((CreateEnvironment st environmentName instanceSize operatingSystem amiID
          minClusterCount userDataTemplate).2).take 6 =
        [.createCluster (ecsEnvironmentIDOf (GenerateHashedEntityID environmentName)),
         .createSecurityGroup
           (securityGroupNameOf (ecsEnvironmentIDOf (GenerateHashedEntityID environmentName)))
           "Auto-generated Layer0 Environment Security Group" AWSVPCID,
         .sleepPropagation,
         .authorizeSecurityGroupIngressFromGroup
           ("sg-" ++ securityGroupNameOf (ecsEnvironmentIDOf (GenerateHashedEntityID environmentName)))
           ("sg-" ++ securityGroupNameOf (ecsEnvironmentIDOf (GenerateHashedEntityID environmentName))),
         .createLaunchConfiguration
           (launchConfigurationNameOf (ecsEnvironmentIDOf (GenerateHashedEntityID environmentName)))
           (if amiID ≠ "" then amiID else AWSWindowsServiceAMI)
           AWSECSInstanceProfile instanceSize AWSKeyPair
           (renderUserData (ecsEnvironmentIDOf (GenerateHashedEntityID environmentName))
             (if userDataTemplate = "" then defaultWindowsUserDataTemplate else userDataTemplate))
           ["sg-" ++ securityGroupNameOf (ecsEnvironmentIDOf (GenerateHashedEntityID environmentName)),
            AWSAgentGroupID],
         .createAutoScalingGroup
           (autoScalingGroupNameOf (ecsEnvironmentIDOf (GenerateHashedEntityID environmentName)))
           (launchConfigurationNameOf (ecsEnvironmentIDOf (GenerateHashedEntityID environmentName)))
           minClusterCount (if minClusterCount > 0 then minClusterCount else 0)]) := by
  refine ⟨?_, ?_, ?_⟩
  · intro h1 h2
    refine ⟨⟨⟨"", "Operating system " ++ operatingSystem ++ " is not recognized"⟩, ?_⟩, ?_⟩ <;>
      simp [CreateEnvironment, h1, h2]
  · intro hos hni
    have hcont : st.ingress.contains
        ("sg-" ++ securityGroupNameOf (ecsEnvironmentIDOf (GenerateHashedEntityID environmentName)),
         "sg-" ++ securityGroupNameOf (ecsEnvironmentIDOf (GenerateHashedEntityID environmentName)))
        = false := by
      simp [List.elem_eq_mem, hni]
    simp only [CreateEnvironment, hos, createClusterP, createSecurityGroupP,
      authorizeIngressP, hcont, createLaunchConfigurationP, createAutoScalingGroupP]
    simp
  · intro hos hni
    have hnl : lowerStr operatingSystem ≠ "linux" := by
      rw [hos]
      decide
    have hcont : st.ingress.contains
        ("sg-" ++ securityGroupNameOf (ecsEnvironmentIDOf (GenerateHashedEntityID environmentName)),
         "sg-" ++ securityGroupNameOf (ecsEnvironmentIDOf (GenerateHashedEntityID environmentName)))
        = false := by
      simp [List.elem_eq_mem, hni]
    simp only [CreateEnvironment, hos, hnl, createClusterP, createSecurityGroupP,
      authorizeIngressP, hcont, createLaunchConfigurationP, createAutoScalingGroupP]
    simp

/-- C6 counterexample: for a negative requested count the scaling group is
created with min equal to that negative count, not zero, so with
minClusterCount equal to minus one the claim's "both zero otherwise" fails
while max is still clamped to zero. -/
theorem C6_counterexample_negative_min :
    ((CreateEnvironment envStateEmpty "prod" "m3.medium" "linux" "" (-1) "").2).get? 5 =
      some (.createAutoScalingGroup "l0-hprod--asg" "l0-hprod--lc" (-1) 0) := by
  rfl

/-- C6 witness: concrete linux create emits the canonical six calls first;
a concrete unrecognized operating system fails with no provider call. -/
theorem C6_create_call_order_witness :
    (((CreateEnvironment envStateEmpty "prod" "m3.medium" "linux" "" 2 "").2).take 6 =
      [.createCluster "l0-hprod",
       .createSecurityGroup "l0-hprod--env"
         "Auto-generated Layer0 Environment Security Group" AWSVPCID,
       .sleepPropagation,
       .authorizeSecurityGroupIngressFromGroup "sg-l0-hprod--env" "sg-l0-hprod--env",
       .createLaunchConfiguration "l0-hprod--lc"
         (if ("" : String) ≠ "" then "" else AWSLinuxServiceAMI)
         AWSECSInstanceProfile "m3.medium" AWSKeyPair
         (renderUserData "l0-hprod"
           (if ("" : String) = "" then defaultLinuxUserDataTemplate else ""))
         ["sg-l0-hprod--env", AWSAgentGroupID],
       .createAutoScalingGroup "l0-hprod--asg" "l0-hprod--lc" 2
         (if (2 : Int) > 0 then 2 else 0)]) ∧
    ((∃ e, (CreateEnvironment envStateEmpty "prod" "m3.medium" "darwin" "" 2 "").1 = .error e) ∧
      (CreateEnvironment envStateEmpty "prod" "m3.medium" "darwin" "" 2 "").2 = []) :=
  ⟨(C6_create_call_order envStateEmpty "prod" "m3.medium" "linux" "" 2 "").2.1 rfl (by decide),
   (C6_create_call_order envStateEmpty "prod" "m3.medium" "darwin" "" 2 "").1
     (by decide) (by decide)⟩

theorem authorizeIngressP_mem (st : EnvState) (p q : String)
    (h : (p, q) ∈ st.ingress) :
    authorizeIngressP st p q = .error duplicatePermission := by
  simp [authorizeIngressP, List.elem_eq_mem, h]

theorem authorizeIngressP_not_mem (st : EnvState) (p q : String)
    (h : (p, q) ∉ st.ingress) :
    authorizeIngressP st p q = .ok { st with ingress := (p, q) :: st.ingress } := by
  simp [authorizeIngressP, List.elem_eq_mem, h]

/-- C7: linking two environments adds ingress in both directions between
their security groups; a second link of the same pair is a no-op success
(duplicate permissions tolerated), and the final state holds exactly one
rule in each direction. -/
theorem C7_link_both_directions_idempotent (st : EnvState)
    (sourceEnvironmentID destEnvironmentID : String) (gA gB : SecurityGroup)
    (hA : lookupSG st (securityGroupNameOf (ecsEnvironmentIDOf sourceEnvironmentID)) = some gA)
    (hB : lookupSG st (securityGroupNameOf (ecsEnvironmentIDOf destEnvironmentID)) = some gB)
    (h1 : (gA.groupId, gB.groupId) ∉ st.ingress)
    (h2 : (gB.groupId, gA.groupId) ∉ st.ingress) :
    ∃ st1, (CreateEnvironmentLink st sourceEnvironmentID destEnvironmentID).1 = .ok st1 ∧
      (CreateEnvironmentLink st1 sourceEnvironmentID destEnvironmentID).1 = .ok st1 ∧
      st1.ingress.count (gA.groupId, gB.groupId) = 1 ∧
      st1.ingress.count (gB.groupId, gA.groupId) = 1 := by
  have hgA : getEnvironmentSecurityGroup st (ecsEnvironmentIDOf sourceEnvironmentID)
      = (.ok gA, [.describeSecurityGroup
          (securityGroupNameOf (ecsEnvironmentIDOf sourceEnvironmentID))]) := by
    simp [getEnvironmentSecurityGroup, describeSecurityGroupP, hA]
  have hgB : getEnvironmentSecurityGroup st (ecsEnvironmentIDOf destEnvironmentID)
      = (.ok gB, [.describeSecurityGroup
          (securityGroupNameOf (ecsEnvironmentIDOf destEnvironmentID))]) := by
    simp [getEnvironmentSecurityGroup, describeSecurityGroupP, hB]
  have auth1 := authorizeIngressP_not_mem st gA.groupId gB.groupId h1
  by_cases hEq : gB.groupId = gA.groupId
  · -- both directions are the same rule: the first authorize inserts it,
    -- the second hits the duplicate tolerance
    have hpair : (gB.groupId, gA.groupId) = (gA.groupId, gB.groupId) := by rw [hEq]
    have hmem2 : (gB.groupId, gA.groupId) ∈ (gA.groupId, gB.groupId) :: st.ingress := by
      rw [hpair]
      exact List.mem_cons_self ..
    have auth2 := authorizeIngressP_mem
      { st with ingress := (gA.groupId, gB.groupId) :: st.ingress } gB.groupId gA.groupId hmem2
    have authA := authorizeIngressP_mem
      { st with ingress := (gA.groupId, gB.groupId) :: st.ingress } gA.groupId gB.groupId
      (List.mem_cons_self ..)
    refine ⟨{ st with ingress := (gA.groupId, gB.groupId) :: st.ingress }, ?_, ?_, ?_, ?_⟩
    · simp only [CreateEnvironmentLink, hgA, hgB, auth1, auth2, cc_duplicate]
      simp
    · have hgA1 : getEnvironmentSecurityGroup
          { st with ingress := (gA.groupId, gB.groupId) :: st.ingress }
          (ecsEnvironmentIDOf sourceEnvironmentID)
          = (.ok gA, [.describeSecurityGroup
              (securityGroupNameOf (ecsEnvironmentIDOf sourceEnvironmentID))]) := hgA
      have hgB1 : getEnvironmentSecurityGroup
          { st with ingress := (gA.groupId, gB.groupId) :: st.ingress }
          (ecsEnvironmentIDOf destEnvironmentID)
          = (.ok gB, [.describeSecurityGroup
              (securityGroupNameOf (ecsEnvironmentIDOf destEnvironmentID))]) := hgB
      simp only [CreateEnvironmentLink, hgA1, hgB1, authA, cc_duplicate]
      simp only [if_true]
      rw [auth2]
      simp [cc_duplicate]
    · rw [List.count_cons_self, List.count_eq_zero_of_not_mem h1]
    · rw [hpair, List.count_cons_self, List.count_eq_zero_of_not_mem h1]
  · -- distinct rules: both get inserted; the second call hits both
    -- duplicate tolerances
    have hne : (gB.groupId, gA.groupId) ≠ (gA.groupId, gB.groupId) := by
      intro hp
      exact hEq (congrArg Prod.fst hp)
    have hmem2 : (gB.groupId, gA.groupId) ∉ (gA.groupId, gB.groupId) :: st.ingress := by
      intro hm
      rcases List.mem_cons.mp hm with hm | hm
      · exact hne hm
      · exact h2 hm
    have auth2 := authorizeIngressP_not_mem
      { st with ingress := (gA.groupId, gB.groupId) :: st.ingress } gB.groupId gA.groupId hmem2
    have authA : authorizeIngressP
        { st with ingress :=
          (gB.groupId, gA.groupId) :: (gA.groupId, gB.groupId) :: st.ingress }
        gA.groupId gB.groupId = .error duplicatePermission :=
      authorizeIngressP_mem _ _ _
        (List.mem_cons_of_mem _ (List.mem_cons_self ..))
    have authB : authorizeIngressP
        { st with ingress :=
          (gB.groupId, gA.groupId) :: (gA.groupId, gB.groupId) :: st.ingress }
        gB.groupId gA.groupId = .error duplicatePermission :=
      authorizeIngressP_mem _ _ _ (List.mem_cons_self ..)
    refine ⟨{ st with ingress :=
        (gB.groupId, gA.groupId) :: (gA.groupId, gB.groupId) :: st.ingress }, ?_, ?_, ?_, ?_⟩
    · simp only [CreateEnvironmentLink, hgA, hgB, auth1, auth2]
    · have hgA1 : getEnvironmentSecurityGroup
          { st with ingress :=
            (gB.groupId, gA.groupId) :: (gA.groupId, gB.groupId) :: st.ingress }
          (ecsEnvironmentIDOf sourceEnvironmentID)
          = (.ok gA, [.describeSecurityGroup
              (securityGroupNameOf (ecsEnvironmentIDOf sourceEnvironmentID))]) := hgA
      have hgB1 : getEnvironmentSecurityGroup
          { st with ingress :=
            (gB.groupId, gA.groupId) :: (gA.groupId, gB.groupId) :: st.ingress }
          (ecsEnvironmentIDOf destEnvironmentID)
          = (.ok gB, [.describeSecurityGroup
              (securityGroupNameOf (ecsEnvironmentIDOf destEnvironmentID))]) := hgB
      simp only [CreateEnvironmentLink, hgA1, hgB1, authA, cc_duplicate]
      simp only [if_true]
      rw [authB]
      simp [cc_duplicate]
    · rw [List.count_cons_of_ne hne.symm, List.count_cons_self,
        List.count_eq_zero_of_not_mem h1]
    · rw [List.count_cons_self, List.count_cons_of_ne hne,
        List.count_eq_zero_of_not_mem h2]

/-- C7 witness: concrete link of two environments, applied at a state with
both security groups present and no prior rules. -/
theorem C7_link_both_directions_idempotent_witness :
    ∃ st1, (CreateEnvironmentLink envStateLink "e1" "e2").1 = .ok st1 ∧
      (CreateEnvironmentLink st1 "e1" "e2").1 = .ok st1 ∧
      st1.ingress.count ("sg-a", "sg-b") = 1 ∧
      st1.ingress.count ("sg-b", "sg-a") = 1 :=
  C7_link_both_directions_idempotent envStateLink "e1" "e2"
    ⟨"l0-e1--env", "sg-a"⟩ ⟨"l0-e2--env", "sg-b"⟩ rfl rfl (by decide) (by decide)

/-- C8: when UpdateEnvironment adjusts the minimum count, the max bound is
raised to the new minimum before the min bound changes whenever the new
minimum exceeds the existing max; otherwise only the min bound is updated;
in both cases the scaling group satisfies min ≤ max after every prefix of
the issued calls. -/
theorem C8_update_min_raises_max_first (st : EnvState) (environmentID : String)
    (minClusterCount : Int) (a : AutoScalingGroup)
    (ha : lookupASG st (autoScalingGroupNameOf (ecsEnvironmentIDOf environmentID)) = some a)
    (hinv : a.minSize ≤ a.maxSize) :
    (∃ st', (updateEnvironmentMinCount st environmentID minClusterCount).1 = .ok st') ∧
    (updateEnvironmentMinCount st environmentID minClusterCount).2 =
      (if a.maxSize < minClusterCount then
        [.describeAutoScalingGroup (autoScalingGroupNameOf (ecsEnvironmentIDOf environmentID)),
         .updateAutoScalingGroupMaxSize
           (autoScalingGroupNameOf (ecsEnvironmentIDOf environmentID)) minClusterCount,
         .updateAutoScalingGroupMinSize
           (autoScalingGroupNameOf (ecsEnvironmentIDOf environmentID)) minClusterCount]
       else
        [.describeAutoScalingGroup (autoScalingGroupNameOf (ecsEnvironmentIDOf environmentID)),
         .updateAutoScalingGroupMinSize
           (autoScalingGroupNameOf (ecsEnvironmentIDOf environmentID)) minClusterCount]) ∧
    (∀ k b, lookupASG (applyCalls st
        (((updateEnvironmentMinCount st environmentID minClusterCount).2).take k))
        (autoScalingGroupNameOf (ecsEnvironmentIDOf environmentID)) = some b →
      b.minSize ≤ b.maxSize) := by
  have hdesc : describeAutoScalingGroupP st
      (autoScalingGroupNameOf (ecsEnvironmentIDOf environmentID)) = .ok a := by
    simp [describeAutoScalingGroupP, ha]
  by_cases hlt : a.maxSize < minClusterCount
  · have hmax : updateAutoScalingGroupMaxSizeP st
        (autoScalingGroupNameOf (ecsEnvironmentIDOf environmentID)) minClusterCount
        = .ok (asgSetMax st (autoScalingGroupNameOf (ecsEnvironmentIDOf environmentID))
            minClusterCount) := by
      simp [updateAutoScalingGroupMaxSizeP, ha]
    have hA1 := lookupASG_asgSetMax_some st
      (autoScalingGroupNameOf (ecsEnvironmentIDOf environmentID)) minClusterCount a ha
    have hmin : updateAutoScalingGroupMinSizeP
        (asgSetMax st (autoScalingGroupNameOf (ecsEnvironmentIDOf environmentID)) minClusterCount)
        (autoScalingGroupNameOf (ecsEnvironmentIDOf environmentID)) minClusterCount
        = .ok (asgSetMin
            (asgSetMax st (autoScalingGroupNameOf (ecsEnvironmentIDOf environmentID)) minClusterCount)
            (autoScalingGroupNameOf (ecsEnvironmentIDOf environmentID)) minClusterCount) := by
      simp [updateAutoScalingGroupMinSizeP, hA1]
    have htrace : (updateEnvironmentMinCount st environmentID minClusterCount).2 =
        [.describeAutoScalingGroup (autoScalingGroupNameOf (ecsEnvironmentIDOf environmentID)),
         .updateAutoScalingGroupMaxSize
           (autoScalingGroupNameOf (ecsEnvironmentIDOf environmentID)) minClusterCount,
         .updateAutoScalingGroupMinSize
           (autoScalingGroupNameOf (ecsEnvironmentIDOf environmentID)) minClusterCount] := by
      simp only [updateEnvironmentMinCount, hdesc, if_pos hlt, hmax, hmin]
    refine ⟨⟨asgSetMin
      (asgSetMax st (autoScalingGroupNameOf (ecsEnvironmentIDOf environmentID)) minClusterCount)
      (autoScalingGroupNameOf (ecsEnvironmentIDOf environmentID)) minClusterCount, ?_⟩, ?_, ?_⟩
    · simp only [updateEnvironmentMinCount, hdesc, if_pos hlt, hmax, hmin]
    · rw [htrace, if_pos hlt]
    · intro k b h
      rw [htrace] at h
      have hA2 := lookupASG_asgSetMin_some
        (asgSetMax st (autoScalingGroupNameOf (ecsEnvironmentIDOf environmentID)) minClusterCount)
        (autoScalingGroupNameOf (ecsEnvironmentIDOf environmentID)) minClusterCount _ hA1
      rcases k with _ | _ | _ | k
      · simp only [List.take_zero, applyCalls, List.foldl_nil] at h
        rw [ha] at h
        injection h with hb
        subst hb
        exact hinv
      · simp only [List.take_succ_cons, List.take_zero, applyCalls, List.foldl_cons,
          List.foldl_nil, applyProviderCall] at h
        rw [ha] at h
        injection h with hb
        subst hb
        exact hinv
      · simp only [List.take_succ_cons, List.take_zero, applyCalls, List.foldl_cons,
          List.foldl_nil, applyProviderCall] at h
        rw [hA1] at h
        injection h with hb
        subst hb
        simp only []
        omega
      · simp only [List.take_succ_cons, List.take_nil, applyCalls, List.foldl_cons,
          List.foldl_nil, applyProviderCall] at h
        rw [hA2] at h
        injection h with hb
        subst hb
        simp only []
        omega
  · have hmin : updateAutoScalingGroupMinSizeP st
        (autoScalingGroupNameOf (ecsEnvironmentIDOf environmentID)) minClusterCount
        = .ok (asgSetMin st (autoScalingGroupNameOf (ecsEnvironmentIDOf environmentID))
            minClusterCount) := by
      simp [updateAutoScalingGroupMinSizeP, ha]
    have hA1 := lookupASG_asgSetMin_some st
      (autoScalingGroupNameOf (ecsEnvironmentIDOf environmentID)) minClusterCount a ha
    have htrace : (updateEnvironmentMinCount st environmentID minClusterCount).2 =
        [.describeAutoScalingGroup (autoScalingGroupNameOf (ecsEnvironmentIDOf environmentID)),
         .updateAutoScalingGroupMinSize
           (autoScalingGroupNameOf (ecsEnvironmentIDOf environmentID)) minClusterCount] := by
      simp only [updateEnvironmentMinCount, hdesc, if_neg hlt, hmin]
    refine ⟨⟨asgSetMin st (autoScalingGroupNameOf (ecsEnvironmentIDOf environmentID))
      minClusterCount, ?_⟩, ?_, ?_⟩
    · simp only [updateEnvironmentMinCount, hdesc, if_neg hlt, hmin]
    · rw [htrace, if_neg hlt]
    · intro k b h
      rw [htrace] at h
      rcases k with _ | _ | k
      · simp only [List.take_zero, applyCalls, List.foldl_nil] at h
        rw [ha] at h
        injection h with hb
        subst hb
        exact hinv
      · simp only [List.take_succ_cons, List.take_zero, applyCalls, List.foldl_cons,
          List.foldl_nil, applyProviderCall] at h
        rw [ha] at h
        injection h with hb
        subst hb
        exact hinv
      · simp only [List.take_succ_cons, List.take_nil, applyCalls, List.foldl_cons,
          List.foldl_nil, applyProviderCall] at h
        rw [hA1] at h
        injection h with hb
        subst hb
        simp only []
        omega

/-- C8 witness: raising the minimum of a (min 1, max 2) group to 5 first
raises the max; the min ≤ max invariant holds after every prefix. -/
theorem C8_update_min_raises_max_first_witness :
    (∃ st', (updateEnvironmentMinCount envStateFull "e1" 5).1 = .ok st') ∧
    (updateEnvironmentMinCount envStateFull "e1" 5).2 =
      (if (2 : Int) < 5 then
        [.describeAutoScalingGroup "l0-e1--asg",
         .updateAutoScalingGroupMaxSize "l0-e1--asg" 5,
         .updateAutoScalingGroupMinSize "l0-e1--asg" 5]
       else
        [.describeAutoScalingGroup "l0-e1--asg",
         .updateAutoScalingGroupMinSize "l0-e1--asg" 5]) ∧
    (∀ k b, lookupASG (applyCalls envStateFull
        (((updateEnvironmentMinCount envStateFull "e1" 5).2).take k)) "l0-e1--asg" = some b →
      b.minSize ≤ b.maxSize) :=
  C8_update_min_raises_max_first envStateFull "e1" 5
    ⟨"l0-e1--asg", 1, 2, some "l0-e1--lc", 1⟩ rfl (by decide)

/-- The model assembled by populateModel never sets the fields that no
code path assigns. -/
theorem populateModel_fields (st : EnvState) (cname : String) (env : Environment)
    (h : (populateModel st cname).1 = .ok env) :
    env.EnvironmentName = "" ∧ env.OperatingSystem = "" ∧ env.Links = [] := by
  simp only [populateModel] at h
  split at h
  · exact absurd h (by simp)
  · split at h
    · exact absurd h (by simp)
    · split at h
      · exact absurd h (by simp)
      · simp only [Except.ok.injEq] at h
        subst h
        exact ⟨rfl, rfl, rfl⟩

/-- C10: every Environment model returned by GetEnvironment leaves
EnvironmentName, OperatingSystem and Links at their zero values, and every
model returned by ListEnvironments leaves every field except EnvironmentID
at its zero value. -/
theorem C10_models_leave_fields_zero (st : EnvState) :
    (∀ environmentID env, (GetEnvironment st environmentID).1 = .ok env →
      env.EnvironmentName = "" ∧ env.OperatingSystem = "" ∧ env.Links = []) ∧
    (∀ envs, (ListEnvironments st).1 = .ok envs → ∀ env ∈ envs,
      env.EnvironmentName = "" ∧ env.OperatingSystem = "" ∧ env.Links = [] ∧
      env.ClusterCount = 0 ∧ env.InstanceSize = "" ∧ env.SecurityGroupID = "" ∧
      env.AMIID = "") := by
  constructor
  · intro environmentID env h
    simp only [GetEnvironment] at h
    split at h
    · split at h <;> simp at h
    · rename_i cluster heq
      exact populateModel_fields st cluster env h
  · intro envs h env hmem
    simp only [ListEnvironments, Except.ok.injEq] at h
    subst h
    obtain ⟨c, _, hc⟩ := List.mem_map.mp hmem
    subst hc
    exact ⟨rfl, rfl, rfl, rfl, rfl, rfl, rfl⟩

/-- C10 witness: a cluster-only environment read back through
GetEnvironment and ListEnvironments yields models with only the logical ID
populated. -/
theorem C10_models_leave_fields_zero_witness :
    (({ EnvironmentID := "e1" } : Environment).EnvironmentName = "" ∧
     ({ EnvironmentID := "e1" } : Environment).OperatingSystem = "" ∧
     ({ EnvironmentID := "e1" } : Environment).Links = []) ∧
    (∀ env ∈ [({ EnvironmentID := "e1" } : Environment)],
      env.EnvironmentName = "" ∧ env.OperatingSystem = "" ∧ env.Links = [] ∧
      env.ClusterCount = 0 ∧ env.InstanceSize = "" ∧ env.SecurityGroupID = "" ∧
      env.AMIID = "") :=
  ⟨(C10_models_leave_fields_zero envStateClusterOnly).1 "e1" { EnvironmentID := "e1" } rfl,
   (C10_models_leave_fields_zero envStateClusterOnly).2 [{ EnvironmentID := "e1" }] rfl⟩

end Layer0
